import Mathlib

/-!
Verification of the resumable download/upload engine of the
datacollective-python client library.

The Python source is shallowly embedded: the local filesystem is a total
map from path strings to optional file contents, side-effecting functions
take the filesystem as an argument and return the updated filesystem, and
external collaborators (the HTTP API, object storage) are modelled as
explicit oracle inputs describing the responses the code would observe.
-/

namespace DataCollective

/-! ## Python-value helpers

Python truthiness for the values that the embedded code branches on:
a string is truthy iff non-empty, an optional is truthy iff it holds a
truthy value, an integer is truthy iff nonzero. -/

/-- Truthiness of a Python string: non-empty. -/
def strTruthy (s : String) : Bool := !s.isEmpty

/-- Truthiness of an optional Python string (None is falsy). -/
def optStrTruthy : Option String → Bool
  | none => false
  | some s => strTruthy s

/-- Truthiness of an optional Python integer (None and 0 are falsy). -/
def optIntTruthy : Option Int → Bool
  | none => false
  | some n => n ≠ 0

/-- ASCII whitespace recognised by Python str.strip(). -/
def pyIsSpace (c : Char) : Bool :=
  c == ' ' || c == '\t' || c == '\n' || c == '\x0b' || c == '\x0c' || c == '\r'

/-- Python str.strip(): remove leading and trailing whitespace (structural,
so that concrete instances evaluate in the kernel). -/
def pyStrip (s : String) : String :=
  ⟨((s.data.dropWhile pyIsSpace).reverse.dropWhile pyIsSpace).reverse⟩

/-! ## Filesystem model (download side)

File contents are opaque strings; for the partial archive file the string
stands for the raw byte content and its length for the byte size. -/

/-- A filesystem: total map from path to optional content. -/
def FS : Type := String → Option String

/-- Whether a path exists on the filesystem. -/
def FS.pexists (fs : FS) (p : String) : Bool := (fs p).isSome

/-- Remove a path (Python Path.unlink). -/
def FS.unlink (fs : FS) (p : String) : FS :=
  fun q => if q = p then none else fs q

/-- Write content to a path (Python Path.write_text). -/
def FS.write (fs : FS) (p : String) (c : String) : FS :=
  fun q => if q = p then some c else fs q

/-- The empty filesystem. -/
def FS.empty : FS := fun _ => none

/-! ## download.py: data model -/

/-- Embeds dataclass DownloadPlan of download.py. -/
structure DownloadPlan where
  download_url : String
  filename : String
  target_filepath : String
  tmp_filepath : String
  size_bytes : Int
  checksum : Option String
  checksum_filepath : String
deriving DecidableEq, Repr

/-! ## download.py: resume-state resolver -/

/-- Embeds _read_checksum_file of download.py: read the stored checksum,
stripped of surrounding whitespace, or None when the file is absent. -/
def _read_checksum_file (fs : FS) (checksum_filepath : String) : Option String :=
  match fs checksum_filepath with
  | none => none
  | some content => some (pyStrip content)

/-- Embeds write_checksum_file of download.py. -/
def write_checksum_file (fs : FS) (checksum_filepath : String) (checksum : String) : FS :=
  FS.write fs checksum_filepath checksum

/-- Embeds cleanup_partial_download of download.py: unlink the .part file
if it exists, then unlink the .checksum file if it exists. -/
def cleanup_partial_download (fs : FS) (tmp_filepath checksum_filepath : String) : FS :=
  let fs1 := if FS.pexists fs tmp_filepath then FS.unlink fs tmp_filepath else fs
  if FS.pexists fs1 checksum_filepath then FS.unlink fs1 checksum_filepath else fs1

/-- Embeds determine_resume_state of download.py.  Returns the resume
checksum (or None) together with the filesystem after the eager cleanup
side effects. -/
def determine_resume_state (download_plan : DownloadPlan) (fs : FS) :
    Option String × FS :=
  let tmp_filepath := download_plan.tmp_filepath
  let part_exists := FS.pexists fs tmp_filepath
  let checksum_file_exists := FS.pexists fs download_plan.checksum_filepath
  let stored_checksum :=
    if checksum_file_exists then
      _read_checksum_file fs download_plan.checksum_filepath
    else
      none
  if part_exists && checksum_file_exists && optStrTruthy stored_checksum then
    if stored_checksum = download_plan.checksum then
      (stored_checksum, fs)
    else
      (none, cleanup_partial_download fs tmp_filepath download_plan.checksum_filepath)
  else if part_exists && !checksum_file_exists then
    (none, cleanup_partial_download fs tmp_filepath download_plan.checksum_filepath)
  else if checksum_file_exists && !part_exists then
    (none, cleanup_partial_download fs tmp_filepath download_plan.checksum_filepath)
  else
    (none, fs)

/-! ## Evaluation lemmas for determine_resume_state -/

/-- Case 1 of the table: both files exist, stored checksum non-blank and
equal to the plan's checksum: resume, touching nothing. -/
lemma drs_resume (plan : DownloadPlan) (fs : FS) (pc cc : String)
    (h1 : fs plan.tmp_filepath = some pc)
    (h2 : fs plan.checksum_filepath = some cc)
    (h3 : pyStrip cc ≠ "")
    (h4 : some (pyStrip cc) = plan.checksum) :
    determine_resume_state plan fs = (some (pyStrip cc), fs) := by
  simp only [determine_resume_state, FS.pexists, _read_checksum_file, h1, h2,
    Option.isSome_some, optStrTruthy, strTruthy, if_true, Bool.true_and, Bool.and_self]
  simp [h3, h4, String.isEmpty_iff]

/-- Case 2: both files exist, stored checksum non-blank but different from
the plan's checksum: cleanup of both files. -/
lemma drs_mismatch (plan : DownloadPlan) (fs : FS) (pc cc : String)
    (h1 : fs plan.tmp_filepath = some pc)
    (h2 : fs plan.checksum_filepath = some cc)
    (h3 : pyStrip cc ≠ "")
    (h4 : some (pyStrip cc) ≠ plan.checksum) :
    determine_resume_state plan fs =
      (none, cleanup_partial_download fs plan.tmp_filepath plan.checksum_filepath) := by
  simp only [determine_resume_state, FS.pexists, _read_checksum_file, h1, h2,
    Option.isSome_some, optStrTruthy, strTruthy, if_true, Bool.true_and, Bool.and_self]
  simp [h3, h4, String.isEmpty_iff]

/-- Case 3: partial file without a checksum marker: cleanup. -/
lemma drs_no_marker (plan : DownloadPlan) (fs : FS) (pc : String)
    (h1 : fs plan.tmp_filepath = some pc)
    (h2 : fs plan.checksum_filepath = none) :
    determine_resume_state plan fs =
      (none, cleanup_partial_download fs plan.tmp_filepath plan.checksum_filepath) := by
  simp [determine_resume_state, FS.pexists, _read_checksum_file, h1, h2, optStrTruthy]

/-- Case 4: orphaned checksum marker without a partial file: cleanup. -/
lemma drs_orphan (plan : DownloadPlan) (fs : FS) (cc : String)
    (h1 : fs plan.tmp_filepath = none)
    (h2 : fs plan.checksum_filepath = some cc) :
    determine_resume_state plan fs =
      (none, cleanup_partial_download fs plan.tmp_filepath plan.checksum_filepath) := by
  simp [determine_resume_state, FS.pexists, _read_checksum_file, h1, h2, optStrTruthy]

/-- Case 5: neither file exists: nothing to do. -/
lemma drs_nothing (plan : DownloadPlan) (fs : FS)
    (h1 : fs plan.tmp_filepath = none)
    (h2 : fs plan.checksum_filepath = none) :
    determine_resume_state plan fs = (none, fs) := by
  simp [determine_resume_state, FS.pexists, h1, h2]

/-- Degenerate row absent from the documented table: both files exist but
the stored checksum is blank after stripping.  The guard of case 1 fails on
Python truthiness, and the case 3 and case 4 guards fail because the marker
file does exist, so the code falls through to case 5 and touches nothing. -/
lemma drs_blank_marker (plan : DownloadPlan) (fs : FS) (pc cc : String)
    (h1 : fs plan.tmp_filepath = some pc)
    (h2 : fs plan.checksum_filepath = some cc)
    (h3 : pyStrip cc = "") :
    determine_resume_state plan fs = (none, fs) := by
  simp [determine_resume_state, FS.pexists, _read_checksum_file, h1, h2,
    optStrTruthy, strTruthy, h3]
  intro h
  exact absurd h (by decide)

/-- Pointwise description of cleanup_partial_download: the partial file and
the marker end up absent, every other path keeps its previous content. -/
lemma cleanup_apply (fs : FS) (t c q : String) :
    cleanup_partial_download fs t c q =
      if q = t then none else if q = c then none else fs q := by
  simp only [cleanup_partial_download, FS.pexists]
  rcases eq_or_ne q t with rfl | hqt
  · split <;> split <;>
      simp_all [FS.unlink, Option.not_isSome_iff_eq_none]
  · rcases eq_or_ne q c with rfl | hqc
    · split <;> split <;>
        simp_all [FS.unlink, Option.not_isSome_iff_eq_none, hqt]
    · split <;> split <;> simp_all [FS.unlink, hqt, hqc]

/-- Frame of cleanup_partial_download: other paths are untouched. -/
lemma cleanup_frame (fs : FS) (t c q : String) (hq1 : q ≠ t) (hq2 : q ≠ c) :
    cleanup_partial_download fs t c q = fs q := by
  simp [cleanup_apply, hq1, hq2]

/-- cleanup_partial_download removes the partial file. -/
lemma cleanup_tmp (fs : FS) (t c : String) :
    cleanup_partial_download fs t c t = none := by
  simp [cleanup_apply]

/-- cleanup_partial_download removes the checksum marker. -/
lemma cleanup_marker (fs : FS) (t c : String) :
    cleanup_partial_download fs t c c = none := by
  rcases eq_or_ne c t with rfl | h
  · simp [cleanup_apply]
  · simp [cleanup_apply, h]

/-! ## Concrete download instances for witnesses and counterexamples -/

/-- A concrete plan whose API checksum is "abc". -/
def planA : DownloadPlan where
  download_url := "https://api.example.org/session/1"
  filename := "d.tar"
  target_filepath := "/data/d.tar"
  tmp_filepath := "/data/d.tar.part"
  size_bytes := 100
  checksum := some "abc"
  checksum_filepath := "/data/d.tar.checksum"

/-- Filesystem holding a partial file and a marker matching planA. -/
def fsResume : FS := fun q =>
  if q = "/data/d.tar.part" then some "0123456789"
  else if q = "/data/d.tar.checksum" then some "abc"
  else if q = "/data/d.tar" then some "previous archive"
  else none

/-- Filesystem holding a partial file and a whitespace-only marker. -/
def fsBlank : FS := fun q =>
  if q = "/data/d.tar.part" then some "0123456789"
  else if q = "/data/d.tar.checksum" then some " "
  else none

/-! ## Claim theorems: resume-state resolver -/

/-- C1 (amended): the five-row decision table of determine_resume_state
holds verbatim whenever the stored marker content is non-blank after
stripping; deletions are applied during evaluation (the returned
filesystem is the post-state).  The row added by the amendment: when both
files exist but the marker content is blank, the function returns None and
deletes neither file. -/
theorem C1_determine_resume_state_table (plan : DownloadPlan) (fs : FS) :
    (∀ pc cc, fs plan.tmp_filepath = some pc → fs plan.checksum_filepath = some cc →
      pyStrip cc ≠ "" → some (pyStrip cc) = plan.checksum →
      determine_resume_state plan fs = (some (pyStrip cc), fs)) ∧
    (∀ pc cc, fs plan.tmp_filepath = some pc → fs plan.checksum_filepath = some cc →
      pyStrip cc ≠ "" → some (pyStrip cc) ≠ plan.checksum →
      (determine_resume_state plan fs).1 = none ∧
      (determine_resume_state plan fs).2 plan.tmp_filepath = none ∧
      (determine_resume_state plan fs).2 plan.checksum_filepath = none ∧
      ∀ q, q ≠ plan.tmp_filepath → q ≠ plan.checksum_filepath →
        (determine_resume_state plan fs).2 q = fs q) ∧
    (∀ pc, fs plan.tmp_filepath = some pc → fs plan.checksum_filepath = none →
      (determine_resume_state plan fs).1 = none ∧
      (determine_resume_state plan fs).2 plan.tmp_filepath = none ∧
      ∀ q, q ≠ plan.tmp_filepath → (determine_resume_state plan fs).2 q = fs q) ∧
    (∀ cc, fs plan.tmp_filepath = none → fs plan.checksum_filepath = some cc →
      (determine_resume_state plan fs).1 = none ∧
      (determine_resume_state plan fs).2 plan.checksum_filepath = none ∧
      ∀ q, q ≠ plan.checksum_filepath → (determine_resume_state plan fs).2 q = fs q) ∧
    (fs plan.tmp_filepath = none → fs plan.checksum_filepath = none →
      determine_resume_state plan fs = (none, fs)) ∧
    (∀ pc cc, fs plan.tmp_filepath = some pc → fs plan.checksum_filepath = some cc →
      pyStrip cc = "" → determine_resume_state plan fs = (none, fs)) := by
  refine ⟨?_, ?_, ?_, ?_, ?_, ?_⟩
  · intro pc cc h1 h2 h3 h4
    exact drs_resume plan fs pc cc h1 h2 h3 h4
  · intro pc cc h1 h2 h3 h4
    rw [drs_mismatch plan fs pc cc h1 h2 h3 h4]
    exact ⟨rfl, cleanup_tmp fs _ _, cleanup_marker fs _ _,
      fun q hq1 hq2 => cleanup_frame fs _ _ q hq1 hq2⟩
  · intro pc h1 h2
    rw [drs_no_marker plan fs pc h1 h2]
    refine ⟨rfl, cleanup_tmp fs _ _, fun q hq => ?_⟩
    rcases eq_or_ne q plan.checksum_filepath with rfl | hqc
    · simp [cleanup_apply, hq, h2]
    · simp [cleanup_apply, hq, hqc]
  · intro cc h1 h2
    rw [drs_orphan plan fs cc h1 h2]
    refine ⟨rfl, cleanup_marker fs _ _, fun q hq => ?_⟩
    rcases eq_or_ne q plan.tmp_filepath with rfl | hqt
    · simp [cleanup_apply, hq, h1]
    · simp [cleanup_apply, hq, hqt]
  · exact drs_nothing plan fs
  · intro pc cc h1 h2 h3
    exact drs_blank_marker plan fs pc cc h1 h2 h3

/-- C1 witness: resume row at a concrete plan and filesystem. -/
theorem C1_determine_resume_state_table_witness :
    determine_resume_state planA fsResume = (some (pyStrip "abc"), fsResume) :=
  (C1_determine_resume_state_table planA fsResume).1 "0123456789" "abc"
    (by decide) (by decide) (by decide) (by decide)

/-- C1 counterexample to the claim as stated: both files exist and the
stored checksum (blank after stripping) differs from the plan's checksum,
a mismatch row of the claimed table, yet the function deletes neither the
partial file nor the marker. -/
theorem C1_counterexample :
    (fsBlank planA.tmp_filepath).isSome = true ∧
    (fsBlank planA.checksum_filepath).isSome = true ∧
    _read_checksum_file fsBlank planA.checksum_filepath ≠ planA.checksum ∧
    (determine_resume_state planA fsBlank).1 = none ∧
    (determine_resume_state planA fsBlank).2 planA.tmp_filepath = some "0123456789" ∧
    (determine_resume_state planA fsBlank).2 planA.checksum_filepath = some " " := by
  decide

/-- C2 (amended): a blank checksum marker next to a partial file makes
determine_resume_state return None, but unlike the no-marker row it
deletes neither the partial file nor the marker. -/
theorem C2_blank_marker_returns_none (plan : DownloadPlan) (fs : FS) (pc cc : String)
    (h1 : fs plan.tmp_filepath = some pc)
    (h2 : fs plan.checksum_filepath = some cc)
    (h3 : pyStrip cc = "") :
    determine_resume_state plan fs = (none, fs) :=
  drs_blank_marker plan fs pc cc h1 h2 h3

/-- C2 witness at a concrete plan and filesystem. -/
theorem C2_blank_marker_returns_none_witness :
    determine_resume_state planA fsBlank = (none, fsBlank) :=
  C2_blank_marker_returns_none planA fsBlank "0123456789" " " (by decide) (by decide)
    (by decide)

/-- C2 counterexample to the claim as stated: with a partial file and a
blank marker the function returns None but does not delete the partial
file. -/
theorem C2_counterexample :
    (determine_resume_state planA fsBlank).1 = none ∧
    (determine_resume_state planA fsBlank).2 planA.tmp_filepath ≠ none := by
  decide

/-- C10: determine_resume_state touches no path other than the plan's
tmp_filepath and checksum_filepath; in particular the final target archive
is untouched. -/
theorem C10_no_other_path_touched (plan : DownloadPlan) (fs : FS) (q : String)
    (hq1 : q ≠ plan.tmp_filepath) (hq2 : q ≠ plan.checksum_filepath) :
    (determine_resume_state plan fs).2 q = fs q := by
  simp only [determine_resume_state]
  repeat' split
  all_goals first
    | rfl
    | exact cleanup_frame fs _ _ q hq1 hq2

/-- C10 witness: the target archive path of a concrete plan keeps its
content. -/
theorem C10_no_other_path_touched_witness :
    (determine_resume_state planA fsResume).2 planA.target_filepath =
      fsResume planA.target_filepath :=
  C10_no_other_path_touched planA fsResume planA.target_filepath (by decide) (by decide)

/-! ## api_utils.py: _prepare_download_headers

Headers are a list of key-value pairs; file contents stand for raw bytes,
String.length for the byte size (st_size). -/

/-- Embeds _prepare_download_headers of api_utils.py.  Returns the header
list and the existing byte offset, together with the filesystem after the
possible unlink of a stray partial file. -/
def _prepare_download_headers (fs : FS) (tmp_path : String)
    (resume_checksum : Option String) : (List (String × String) × Nat) × FS :=
  match fs tmp_path with
  | none => (([], 0), fs)
  | some content =>
    if optStrTruthy resume_checksum then
      (([("Range", "bytes=" ++ toString content.length ++ "-")], content.length), fs)
    else
      (([], 0), FS.unlink fs tmp_path)

/-! ## errors.py and download.py: the executor -/

/-- Embeds the constructor payload of DownloadError in errors.py.  The
Python object additionally renders these values as human-readable strings
and a float percentage for display; the carried quantities are the
constructor arguments modelled here. -/
structure DownloadError where
  session_bytes : Nat
  total_downloaded_bytes : Nat
  total_archive_bytes : Int
  checksum : Option String
deriving DecidableEq, Repr

/-- Python open(path, "ab"): create the file empty when absent. -/
def openAppend (fs : FS) (p : String) : FS :=
  match fs p with
  | none => FS.write fs p ""
  | some _ => fs

/-- Append one chunk to an open file. -/
def appendChunk (fs : FS) (p : String) (chunk : String) : FS :=
  match fs p with
  | none => FS.write fs p chunk
  | some c => FS.write fs p (c ++ chunk)

/-- Append a list of chunks in order. -/
def appendChunks (fs : FS) (p : String) : List String → FS
  | [] => fs
  | chunk :: rest => appendChunks (appendChunk fs p chunk) p rest

/-- Embeds execute_download_plan of download.py.  The streamed response
body is an oracle: chunks is the list of chunks iter_content delivered
before the stream ended, and interrupted is true when an exception or
interrupt was raised inside the try block after those chunks (false for a
clean end of stream).  Empty chunks are skipped by the loop; every other
chunk is appended to the partial file immediately, so on an interruption
the delivered chunks are already on disk.  Returns the raised
DownloadError (or none on success) and the final filesystem. -/
def execute_download_plan (download_plan : DownloadPlan)
    (resume_download_checksum : Option String) (fs : FS)
    (chunks : List String) (interrupted : Bool) :
    Option DownloadError × FS :=
  let hp := _prepare_download_headers fs download_plan.tmp_filepath resume_download_checksum
  let downloaded_bytes_so_far := hp.1.2
  let fs1 := hp.2
  let truthyChunks := chunks.filter strTruthy
  let session_downloaded_bytes := (truthyChunks.map String.length).sum
  let total_downloaded_bytes := downloaded_bytes_so_far + session_downloaded_bytes
  let fs2 := appendChunks (openAppend fs1 download_plan.tmp_filepath)
    download_plan.tmp_filepath truthyChunks
  if interrupted then
    (some { session_bytes := session_downloaded_bytes
            total_downloaded_bytes := total_downloaded_bytes
            total_archive_bytes := download_plan.size_bytes
            checksum := download_plan.checksum }, fs2)
  else
    (none, fs2)

/-! ## download.py: the planner -/

/-- The error taxonomy raised by the embedded functions. -/
inductive PyErr where
  | valueError (msg : String)
  | fileNotFound (msg : String)
  | permissionError (msg : String)
  | runtimeError (msg : String)
  | httpError (status : Nat)
deriving DecidableEq, Repr

/-- The JSON fields of the download-session response, typed per the
protocol (absent fields are None). -/
structure SessionPayload where
  downloadUrl : Option String
  filename : Option String
  sizeBytes : Option Int
  checksum : Option String
deriving DecidableEq, Repr

/-- Path join (base_dir / filename) for the plain relative filenames the
API returns. -/
def pathJoin (a b : String) : String := a ++ "/" ++ b

/-- Embeds get_download_plan of download.py.  resolved_dir is the result
of resolve_download_dir (an environment-dependent operation: the resolved
base directory, or the PermissionError it raised); resp is the API
response, or the error send_api_request raised.  For the dotted archive
filenames in use, Path.with_name and Path.with_suffix both append the new
suffix, so tmp and checksum paths are modelled as appends. -/
def get_download_plan (dataset_id : String) (resolved_dir : Except PyErr String)
    (resp : Except PyErr SessionPayload) : Except PyErr DownloadPlan :=
  if !strTruthy dataset_id || !strTruthy (pyStrip dataset_id) then
    .error (.valueError "dataset_id must be a non-empty string")
  else
    match resolved_dir with
    | .error e => .error e
    | .ok base_dir =>
      match resp with
      | .error e => .error e
      | .ok payload =>
        if !optStrTruthy payload.downloadUrl || !optStrTruthy payload.filename
            || !optIntTruthy payload.sizeBytes then
          .error (.runtimeError "Unexpected response format")
        else
          let filename := payload.filename.getD ""
          let target_filepath := pathJoin base_dir filename
          .ok { download_url := payload.downloadUrl.getD ""
                filename := filename
                target_filepath := target_filepath
                tmp_filepath := target_filepath ++ ".part"
                size_bytes := payload.sizeBytes.getD 0
                checksum := payload.checksum
                checksum_filepath := target_filepath ++ ".checksum" }

/-- A non-blank string is non-empty. -/
lemma strip_nonempty (s : String) (h : strTruthy (pyStrip s) = true) :
    strTruthy s = true := by
  rcases eq_or_ne s "" with rfl | hs
  · exact absurd h (by decide)
  · cases hh : s.isEmpty
    · simp [strTruthy, hh]
    · exact absurd ((String.isEmpty_iff s).mp hh) hs

/-! ## Claim theorems: headers, executor, planner -/

/-- C6: _prepare_download_headers issues a byte-range request from the
partial file's size when the partial exists and the resume checksum is
non-empty; otherwise it returns empty headers and offset 0, and when a
partial exists without a resume checksum it is deleted (no other path is
touched). -/
theorem C6_prepare_download_headers (fs : FS) (tmp : String) (rc : Option String) :
    (∀ content, fs tmp = some content → optStrTruthy rc = true →
      _prepare_download_headers fs tmp rc =
        (([("Range", "bytes=" ++ toString content.length ++ "-")], content.length), fs)) ∧
    (fs tmp = none → _prepare_download_headers fs tmp rc = (([], 0), fs)) ∧
    (∀ content, fs tmp = some content → optStrTruthy rc = false →
      (_prepare_download_headers fs tmp rc).1 = ([], 0) ∧
      (_prepare_download_headers fs tmp rc).2 tmp = none ∧
      ∀ q, q ≠ tmp → (_prepare_download_headers fs tmp rc).2 q = fs q) := by
  refine ⟨?_, ?_, ?_⟩
  · intro content h1 h2
    simp [_prepare_download_headers, h1, h2]
  · intro h
    simp [_prepare_download_headers, h]
  · intro content h1 h2
    refine ⟨?_, ?_, fun q hq => ?_⟩
    · simp [_prepare_download_headers, h1, h2]
    · simp [_prepare_download_headers, h1, h2, FS.unlink]
    · simp [_prepare_download_headers, h1, h2, FS.unlink, hq]

/-- C6 witness: resuming over a 10-byte partial file requests bytes from
offset 10. -/
theorem C6_prepare_download_headers_witness :
    _prepare_download_headers fsResume "/data/d.tar.part" (some "abc") =
      (([("Range", "bytes=" ++ toString ("0123456789".length) ++ "-")],
        "0123456789".length), fsResume) :=
  (C6_prepare_download_headers fsResume "/data/d.tar.part" (some "abc")).1
    "0123456789" (by decide) (by decide)

/-- C3: execute_download_plan raises a DownloadError exactly when the
stream is interrupted, carrying the bytes written in this session, the
total bytes including the pre-existing offset (the prior partial size in
the resume case), the declared archive size and the plan's checksum; a
run with no failure raises nothing. -/
theorem C3_executor_error_payload (plan : DownloadPlan) (rc : Option String)
    (fs : FS) (chunks : List String) :
    (execute_download_plan plan rc fs chunks true).1 = some {
        session_bytes := ((chunks.filter strTruthy).map String.length).sum
        total_downloaded_bytes := (_prepare_download_headers fs plan.tmp_filepath rc).1.2 +
          ((chunks.filter strTruthy).map String.length).sum
        total_archive_bytes := plan.size_bytes
        checksum := plan.checksum } ∧
    (execute_download_plan plan rc fs chunks false).1 = none :=
  ⟨rfl, rfl⟩

/-- Download-session response with every field present and valid. -/
def payloadOk : SessionPayload where
  downloadUrl := some "https://api.example.org/session/1"
  filename := some "d.tar"
  sizeBytes := some 1024
  checksum := some "abc"

/-- Download-session response declaring a negative size. -/
def payloadNeg : SessionPayload where
  downloadUrl := some "https://api.example.org/session/1"
  filename := some "d.tar"
  sizeBytes := some (-5)
  checksum := none

/-- C7 (amended): get_download_plan raises invalid-argument on a blank
dataset id independently of the network (for every directory resolution
and every response, hence before any network call); raises a
protocol-mismatch RuntimeError when the response lacks a non-empty URL,
a non-empty filename or a nonzero size; and otherwise returns a plan
whose size_bytes equals the declared size (including a negative declared
size, which the amendment admits). -/
theorem C7_plan_validation (dataset_id : String) (resolved_dir : Except PyErr String)
    (resp : Except PyErr SessionPayload) :
    (strTruthy (pyStrip dataset_id) = false →
      get_download_plan dataset_id resolved_dir resp =
        .error (.valueError "dataset_id must be a non-empty string")) ∧
    (∀ d payload, strTruthy (pyStrip dataset_id) = true → resolved_dir = .ok d →
      resp = .ok payload →
      (optStrTruthy payload.downloadUrl = false ∨ optStrTruthy payload.filename = false ∨
        optIntTruthy payload.sizeBytes = false) →
      get_download_plan dataset_id resolved_dir resp =
        .error (.runtimeError "Unexpected response format")) ∧
    (∀ d payload n, strTruthy (pyStrip dataset_id) = true → resolved_dir = .ok d →
      resp = .ok payload →
      optStrTruthy payload.downloadUrl = true → optStrTruthy payload.filename = true →
      payload.sizeBytes = some n → n ≠ 0 →
      (get_download_plan dataset_id resolved_dir resp).map DownloadPlan.size_bytes =
        .ok n) := by
  refine ⟨?_, ?_, ?_⟩
  · intro h
    simp [get_download_plan, h]
  · intro d payload h hd hr hbad
    subst hd; subst hr
    have hid := strip_nonempty dataset_id h
    rcases hbad with hbad | hbad | hbad <;>
      simp [get_download_plan, h, hid, hbad]
  · intro d payload n h hd hr hu hf hn hnz
    subst hd; subst hr
    have hid := strip_nonempty dataset_id h
    simp [get_download_plan, h, hid, hu, hf, hn, optIntTruthy, hnz, Except.map]

/-- C7 witness: a well-formed response yields a plan carrying the
declared size. -/
theorem C7_plan_validation_witness :
    (get_download_plan "ds1" (.ok "/data") (.ok payloadOk)).map DownloadPlan.size_bytes =
      .ok 1024 :=
  (C7_plan_validation "ds1" (.ok "/data") (.ok payloadOk)).2.2 "/data" payloadOk 1024
    (by decide) rfl rfl (by decide) (by decide) (by decide) (by decide)

/-- C7 counterexample to the claim as stated: a declared size of -5 is not
positive, yet no protocol-mismatch error is raised and the plan carries
size_bytes = -5. -/
theorem C7_counterexample :
    (get_download_plan "ds1" (.ok "/data") (.ok payloadNeg)).map DownloadPlan.size_bytes =
      .ok (-5) := rfl

/-! ## SHA-256 (hashlib.sha256), over byte lists

A direct FIPS 180-4 implementation on Nat with explicit mod 2^32, fully
structural so concrete digests evaluate in the kernel. -/

/-- Truncate to 32 bits. -/
def w32 (x : Nat) : Nat := x % 4294967296

/-- Right rotation of a 32-bit word. -/
def rotr32 (x n : Nat) : Nat := w32 ((x >>> n) ||| (x <<< (32 - n)))

/-- SHA-256 sigma-0 for the message schedule. -/
def ssig0 (x : Nat) : Nat := (rotr32 x 7) ^^^ (rotr32 x 18) ^^^ (x >>> 3)

/-- SHA-256 sigma-1 for the message schedule. -/
def ssig1 (x : Nat) : Nat := (rotr32 x 17) ^^^ (rotr32 x 19) ^^^ (x >>> 10)

/-- SHA-256 big Sigma-0. -/
def bsig0 (x : Nat) : Nat := (rotr32 x 2) ^^^ (rotr32 x 13) ^^^ (rotr32 x 22)

/-- SHA-256 big Sigma-1. -/
def bsig1 (x : Nat) : Nat := (rotr32 x 6) ^^^ (rotr32 x 11) ^^^ (rotr32 x 25)

/-- The 64 SHA-256 round constants. -/
def sha256K : List Nat :=
  [1116352408, 1899447441, 3049323471, 3921009573, 961987163, 1508970993,
   2453635748, 2870763221, 3624381080, 310598401, 607225278, 1426881987,
   1925078388, 2162078206, 2614888103, 3248222580, 3835390401, 4022224774,
   264347078, 604807628, 770255983, 1249150122, 1555081692, 1996064986,
   2554220882, 2821834349, 2952996808, 3210313671, 3336571891, 3584528711,
   113926993, 338241895, 666307205, 773529912, 1294757372, 1396182291,
   1695183700, 1986661051, 2177026350, 2456956037, 2730485921, 2820302411,
   3259730800, 3345764771, 3516065817, 3600352804, 4094571909, 275423344,
   430227734, 506948616, 659060556, 883997877, 958139571, 1322822218,
   1537002063, 1747873779, 1955562222, 2024104815, 2227730452, 2361852424,
   2428436474, 2756734187, 3204031479, 3329325298]

/-- The eight-word SHA-256 working state. -/
structure Hash8 where
  a : Nat
  b : Nat
  c : Nat
  d : Nat
  e : Nat
  f : Nat
  g : Nat
  hh : Nat
deriving Repr, DecidableEq

/-- Initial SHA-256 hash value. -/
def sha256H0 : Hash8 :=
  ⟨1779033703, 3144134277, 1013904242, 2773480762,
   1359893119, 2600822924, 528734635, 1541459225⟩

/-- n as k big-endian bytes. -/
def beBytes (k n : Nat) : List Nat :=
  (List.range k).reverse.map (fun i => (n >>> (8 * i)) % 256)

/-- FIPS padding: append 128, zeros to 56 mod 64, and the bit length. -/
def sha256pad (msg : List Nat) : List Nat :=
  let L := msg.length
  let z := (120 - ((L + 1) % 64)) % 64
  msg ++ [128] ++ List.replicate z 0 ++ beBytes 8 (8 * L)

/-- Big-endian 32-bit words from bytes. -/
def toWords : List Nat → List Nat
  | a :: b :: c :: d :: rest => (((a * 256 + b) * 256 + c) * 256 + d) :: toWords rest
  | _ => []

/-- Extend the message schedule by k further words. -/
def extendSchedule : List Nat → Nat → List Nat
  | ws, 0 => ws
  | ws, Nat.succ k =>
    let n := ws.length
    let t := w32 ((ws.getD (n - 16) 0) + ssig0 (ws.getD (n - 15) 0) +
      (ws.getD (n - 7) 0) + ssig1 (ws.getD (n - 2) 0))
    extendSchedule (ws ++ [t]) k

/-- One SHA-256 compression round. -/
def sha256round (s : Hash8) (k w : Nat) : Hash8 :=
  let ch := (s.e &&& s.f) ^^^ ((s.e ^^^ 4294967295) &&& s.g)
  let maj := (s.a &&& s.b) ^^^ (s.a &&& s.c) ^^^ (s.b &&& s.c)
  let t1 := w32 (s.hh + bsig1 s.e + ch + k + w)
  let t2 := w32 (bsig0 s.a + maj)
  ⟨w32 (t1 + t2), s.a, s.b, s.c, w32 (s.d + t1), s.e, s.f, s.g⟩

/-- Compress one 64-byte block into the running hash. -/
def sha256block (s : Hash8) (block : List Nat) : Hash8 :=
  let sched := extendSchedule (toWords block) 48
  let t := (sha256K.zip sched).foldl (fun st kw => sha256round st kw.1 kw.2) s
  ⟨w32 (s.a + t.a), w32 (s.b + t.b), w32 (s.c + t.c), w32 (s.d + t.d),
   w32 (s.e + t.e), w32 (s.f + t.f), w32 (s.g + t.g), w32 (s.hh + t.hh)⟩

/-- Fold over the given number of 64-byte blocks. -/
def sha256blocks : Nat → List Nat → Hash8 → Hash8
  | 0, _, s => s
  | Nat.succ k, l, s => sha256blocks k (l.drop 64) (sha256block s (l.take 64))

/-- Lowercase hex digit. -/
def hexDigit (n : Nat) : Char :=
  if n < 10 then Char.ofNat (48 + n) else Char.ofNat (87 + n)

/-- A 32-bit word as eight hex characters. -/
def hex8 (x : Nat) : List Char :=
  (List.range 8).reverse.map (fun i => hexDigit ((x >>> (4 * i)) % 16))

/-- SHA-256 hex digest of a byte list (hashlib hexdigest). -/
def sha256hex (msg : List Nat) : String :=
  let padded := sha256pad msg
  let s := sha256blocks (padded.length / 64) padded sha256H0
  ⟨List.flatten ([s.a, s.b, s.c, s.d, s.e, s.f, s.g, s.hh].map hex8)⟩

/-- Known digest of the empty message, validating the implementation. -/
lemma sha256hex_empty :
    sha256hex [] = "e3b0c44298fc1c149afbf4c8996fb92427ae41e4649b934ca495991b7852b855" := by
  set_option maxRecDepth 10000 in decide

/-- Known digest of "abc", validating the implementation. -/
lemma sha256hex_abc :
    sha256hex [97, 98, 99] =
      "ba7816bf8f01cfea414140de5dae2223b00361a396177a9cb410ff61f20015ad" := by
  set_option maxRecDepth 10000 in decide

/-! ## upload.py: persisted state (JSON document model)

The state file holds the JSON document produced by json.dumps of the
to_dict dictionary; json.dumps/json.loads are exactly inverse on the
str/int/None/list/dict shapes used here, so the filesystem for state
files maps paths directly to JSON documents. -/

/-- A JSON value (the shapes appearing in upload-state documents). -/
inductive Json where
  | null
  | str (s : String)
  | num (n : Int)
  | arr (xs : List Json)
  | obj (fields : List (String × Json))

/-- Filesystem for JSON state files. -/
def FSJ : Type := String → Option Json

/-- dict.get(key): first binding of the key, if any. -/
def jget (fields : List (String × Json)) (key : String) : Option Json :=
  match fields.find? (fun kv => kv.1 == key) with
  | none => none
  | some kv => some kv.2

/-- dict.get(key, default). -/
def jgetD (fields : List (String × Json)) (key : String) (dflt : Json) : Json :=
  (jget fields key).getD dflt

/-- Python str() of a JSON value.  The container renderings are
placeholders: from_dict applies str() only to values that
save_upload_state stored as strings, so those branches are unreachable
for any document produced by the code. -/
def pyStrOf : Json → String
  | .null => "None"
  | .str s => s
  | .num n => toString n
  | .arr _ => "[...]"
  | .obj _ => "[...]"

/-- Python int() of a JSON value, None on the inputs where int() raises
(numeric strings are parsed, as int() does). -/
def pyIntOf : Json → Option Int
  | .num n => some n
  | .str s => s.toInt?
  | _ => none

/-- Embeds pydantic model UploadPart of models.py: partNumber ≥ 1
(enforced by validation), etag string. -/
structure UploadPart where
  partNumber : Int
  etag : String
deriving DecidableEq, Repr

/-- UploadPart.model_dump(). -/
def UploadPart.model_dump (p : UploadPart) : Json :=
  .obj [("partNumber", .num p.partNumber), ("etag", .str p.etag)]

/-- UploadPart.model_validate: requires exactly the keys partNumber
(an integer ≥ 1) and etag (a string); extra keys are forbidden by the
model config.  None models the pydantic ValidationError. -/
def UploadPart.model_validate (j : Json) : Option UploadPart :=
  match j with
  | .obj fields =>
    if fields.all (fun kv => kv.1 == "partNumber" || kv.1 == "etag") then
      match jget fields "partNumber", jget fields "etag" with
      | some (.num n), some (.str e) => if 1 ≤ n then some ⟨n, e⟩ else none
      | _, _ => none
    else none
  | _ => none

/-- Validate a list of parts, failing if any element fails. -/
def validateParts : List Json → Option (List UploadPart)
  | [] => some []
  | j :: rest =>
    match UploadPart.model_validate j, validateParts rest with
    | some p, some ps => some (p :: ps)
    | _, _ => none

/-- Embeds dataclass UploadState of upload.py. -/
structure UploadState where
  submissionId : String
  fileUploadId : String
  uploadId : String
  fileSize : Int
  partSize : Int
  filename : String
  mimeType : String
  parts : List UploadPart
  checksum : Option String
deriving DecidableEq, Repr

/-- UploadState.to_dict. -/
def UploadState.to_dict (s : UploadState) : Json :=
  .obj [("submissionId", .str s.submissionId),
        ("fileUploadId", .str s.fileUploadId),
        ("uploadId", .str s.uploadId),
        ("fileSize", .num s.fileSize),
        ("partSize", .num s.partSize),
        ("filename", .str s.filename),
        ("mimeType", .str s.mimeType),
        ("parts", .arr (s.parts.map UploadPart.model_dump)),
        ("checksum", match s.checksum with | none => .null | some c => .str c)]

/-- UploadState.from_dict, with None modelling the exceptions that
load_upload_state catches: int() failures, part-validation failures, a
non-dict document, or a checksum stored as neither null nor a string
(a shape save_upload_state never writes and the typed field cannot
hold). -/
def UploadState.from_dict (payload : Json) : Option UploadState :=
  match payload with
  | .obj fields =>
    match pyIntOf (jgetD fields "fileSize" (.num 0)),
          pyIntOf (jgetD fields "partSize" (.num 0)),
          (match jgetD fields "parts" (.arr []) with
           | .arr xs => validateParts xs
           | _ => none),
          (match jget fields "checksum" with
           | none => some none
           | some .null => some none
           | some (.str s) => some (some s)
           | some _ => none) with
    | some fileSize, some partSize, some parts, some checksum =>
      some { submissionId := pyStrOf (jgetD fields "submissionId" (.str ""))
             fileUploadId := pyStrOf (jgetD fields "fileUploadId" (.str ""))
             uploadId := pyStrOf (jgetD fields "uploadId" (.str ""))
             fileSize := fileSize
             partSize := partSize
             filename := pyStrOf (jgetD fields "filename" (.str ""))
             mimeType := pyStrOf (jgetD fields "mimeType" (.str ""))
             parts := parts
             checksum := checksum }
    | _, _, _, _ => none
  | _ => none

/-- Embeds load_upload_state of upload.py. -/
def load_upload_state (fs : FSJ) (path : String) : Option UploadState :=
  match fs path with
  | none => none
  | some payload =>
    match UploadState.from_dict payload with
    | none => none
    | some state =>
      if !strTruthy state.fileUploadId || !strTruthy state.uploadId then none
      else if state.fileSize ≤ 0 || state.partSize ≤ 0 then none
      else some state

/-- Embeds save_upload_state of upload.py. -/
def save_upload_state (fs : FSJ) (path : String) (state : UploadState) : FSJ :=
  fun q => if q = path then some state.to_dict else fs q

/-- A dumped part re-validates to itself when its number is ≥ 1. -/
lemma validate_dump (p : UploadPart) (h : 1 ≤ p.partNumber) :
    UploadPart.model_validate p.model_dump = some p := by
  simp [UploadPart.model_validate, UploadPart.model_dump, jget, List.find?, h]

/-- Dumped part lists re-validate to themselves. -/
lemma validateParts_dump (ps : List UploadPart) (h : ∀ p ∈ ps, 1 ≤ p.partNumber) :
    validateParts (ps.map UploadPart.model_dump) = some ps := by
  induction ps with
  | nil => rfl
  | cons p rest ih =>
    have hp := h p (by simp)
    have hr := ih (fun q hq => h q (by simp [hq]))
    simp [validateParts, validate_dump p hp, hr]

/-- from_dict inverts to_dict when part numbers are ≥ 1. -/
lemma from_dict_to_dict (st : UploadState) (h : ∀ p ∈ st.parts, 1 ≤ p.partNumber) :
    UploadState.from_dict st.to_dict = some st := by
  cases st with
  | mk submissionId fileUploadId uploadId fileSize partSize filename mimeType parts checksum =>
    have hv := validateParts_dump parts (by simpa using h)
    cases checksum <;>
      simp [UploadState.from_dict, UploadState.to_dict, jgetD, jget, List.find?,
        pyIntOf, pyStrOf, hv]

/-! ## Claim theorem: state round-trip -/

/-- C8: saving a well-formed UploadState and reloading it yields the
same state in every field, including part order, etags and the optional
checksum. -/
theorem C8_state_roundtrip (fs : FSJ) (path : String) (st : UploadState)
    (h1 : strTruthy st.fileUploadId = true) (h2 : strTruthy st.uploadId = true)
    (h3 : 0 < st.fileSize) (h4 : 0 < st.partSize)
    (h5 : ∀ p ∈ st.parts, 1 ≤ p.partNumber) :
    load_upload_state (save_upload_state fs path st) path = some st := by
  have hs : save_upload_state fs path st path = some st.to_dict := by
    simp [save_upload_state]
  simp only [load_upload_state, hs, from_dict_to_dict st h5, h1, h2]
  simp [h1, h2, not_le.mpr h3, not_le.mpr h4]

/-- The upload state of the specification's round-trip example. -/
def stExample : UploadState where
  submissionId := "sub-1"
  fileUploadId := "fu-1"
  uploadId := "u-1"
  fileSize := 1024
  partSize := 256
  filename := "d.tar"
  mimeType := "application/gzip"
  parts := [⟨1, "etag-1"⟩]
  checksum := none

/-- C8 witness: the specification's example state round-trips. -/
theorem C8_state_roundtrip_witness :
    load_upload_state (save_upload_state (fun _ => none) "/data/d.tar.mdc-upload.json"
      stExample) "/data/d.tar.mdc-upload.json" = some stExample :=
  C8_state_roundtrip (fun _ => none) "/data/d.tar.mdc-upload.json" stExample
    (by decide) (by decide) (by decide) (by decide) (by decide)

/-! ## upload.py: sessions, presigned URLs, parts -/

/-- JSON fields of the upload/initiate response. -/
structure InitPayload where
  fileUploadId : Option String
  uploadId : Option String
  bucket : Option String
  key : Option String
  partSize : Option Int
  partNumber : Option Int
  presignedUrl : Option String
  expiresAt : Option String

/-- Embeds dataclass UploadSession of upload.py. -/
structure UploadSession where
  fileUploadId : String
  uploadId : String
  bucket : String
  key : String
  partSize : Int
  partNumber : Int
  presignedUrl : String
  expiresAt : String
deriving DecidableEq, Repr

/-- JSON fields of the presigned-url response. -/
structure PresignedResp where
  partNumber : Option Int
  presignedUrl : Option String
  expiresAt : Option String

/-- Embeds dataclass PresignedPartUrl of upload.py. -/
structure PresignedPartUrl where
  partNumber : Int
  presignedUrl : String
  expiresAt : String
deriving DecidableEq, Repr

/-- Embeds _require_non_empty of upload.py. -/
def _require_non_empty (value field_name : String) : Except PyErr Unit :=
  if !strTruthy value || !strTruthy (pyStrip value) then
    .error (.valueError (field_name ++ " must be a non-empty string"))
  else .ok ()

/-- Embeds initiate_upload of upload.py; resp is the API response (or the
error the request raised). -/
def initiate_upload (submission_id filename : String) (file_size : Int)
    (mime_type : String) (resp : Except PyErr InitPayload) :
    Except PyErr UploadSession :=
  match _require_non_empty submission_id "submission_id" with
  | .error e => .error e
  | .ok _ =>
    match _require_non_empty filename "filename" with
    | .error e => .error e
    | .ok _ =>
      match _require_non_empty mime_type "mime_type" with
      | .error e => .error e
      | .ok _ =>
        if file_size ≤ 0 then
          .error (.valueError "file_size must be a positive integer")
        else
          match resp with
          | .error e => .error e
          | .ok data =>
            .ok { fileUploadId := data.fileUploadId.getD ""
                  uploadId := data.uploadId.getD ""
                  bucket := data.bucket.getD ""
                  key := data.key.getD ""
                  partSize := data.partSize.getD 0
                  partNumber := data.partNumber.getD 1
                  presignedUrl := data.presignedUrl.getD ""
                  expiresAt := data.expiresAt.getD "" }

/-- Embeds get_presigned_part_url of upload.py. -/
def get_presigned_part_url (file_upload_id : String) (chunk_index : Int)
    (resp : Except PyErr PresignedResp) : Except PyErr PresignedPartUrl :=
  match _require_non_empty file_upload_id "file_upload_id" with
  | .error e => .error e
  | .ok _ =>
    if chunk_index < 0 then
      .error (.valueError "chunk_index must be a non-negative integer")
    else
      match resp with
      | .error e => .error e
      | .ok data =>
        .ok { partNumber := data.partNumber.getD (chunk_index + 1)
              presignedUrl := data.presignedUrl.getD ""
              expiresAt := data.expiresAt.getD "" }

/-- Outcome of the PUT to object storage: an HTTP failure
(raise_for_status) or a response with its optional ETag header. -/
inductive PutOutcome where
  | httpFailure (status : Nat)
  | success (etagHeader : Option String)

/-- Embeds _upload_part of upload.py; the response is reduced to its
ETag header, the only part the caller reads. -/
def _upload_part (presigned_url : String) (outcome : PutOutcome) :
    Except PyErr (Option String) :=
  if !strTruthy presigned_url then
    .error (.valueError "Missing presigned URL for upload part")
  else
    match outcome with
    | .httpFailure status => .error (.httpError status)
    | .success h => .ok h

/-- Python str.strip of the double-quote character, both ends. -/
def pyStripQuotes (s : String) : String :=
  ⟨((s.data.dropWhile (fun c => c == '\"')).reverse.dropWhile
    (fun c => c == '\"')).reverse⟩

/-- Embeds _extract_etag of upload.py. -/
def _extract_etag (etagHeader : Option String) : Except PyErr String :=
  match etagHeader with
  | none => .error (.runtimeError "Missing ETag header in upload response")
  | some etag =>
    if !strTruthy etag then
      .error (.runtimeError "Missing ETag header in upload response")
    else
      .ok (pyStripQuotes (pyStrip etag))

/-- Embeds complete_upload of upload.py; resp is the API response. -/
def complete_upload (file_upload_id upload_id : String) (parts : List UploadPart)
    (checksum : String) (resp : Except PyErr Json) : Except PyErr Json :=
  match _require_non_empty file_upload_id "file_upload_id" with
  | .error e => .error e
  | .ok _ =>
    match _require_non_empty upload_id "upload_id" with
    | .error e => .error e
    | .ok _ =>
      match _require_non_empty checksum "checksum" with
      | .error e => .error e
      | .ok _ =>
        if parts.isEmpty then
          .error (.valueError "parts must contain at least one uploaded part")
        else
          resp

/-- Exact ceiling division on Nat. -/
def ceilNat (L P : Nat) : Nat := (L + P - 1) / P

/-- Embeds _expected_parts of upload.py.  Python computes
int(math.ceil(file_size / part_size)) through float division; for the
positive operands admitted by the guard that equals the exact integer
ceiling (float rounding only diverges beyond 2^53). -/
def _expected_parts (file_size part_size : Int) : Int :=
  if file_size ≤ 0 || part_size ≤ 0 then 0
  else (ceilNat file_size.toNat part_size.toNat : Nat)

/-- Lookup in the insertion-ordered dict parts_by_number. -/
def dictLookup (d : List (Int × String)) (k : Int) : Option String :=
  match d.find? (fun kv => kv.1 == k) with
  | none => none
  | some kv => some kv.2

/-- Assignment d[k] = v on the insertion-ordered dict. -/
def dictInsert (d : List (Int × String)) (k : Int) (v : String) : List (Int × String) :=
  if (d.find? (fun kv => kv.1 == k)).isSome then
    d.map (fun kv => if kv.1 == k then (k, v) else kv)
  else
    d ++ [(k, v)]

/-- Embeds _normalize_parts of upload.py: dict from part number to etag,
skipping non-positive part numbers. -/
def _normalize_parts (state : UploadState) : List (Int × String) :=
  state.parts.foldl
    (fun d p => if p.partNumber ≤ 0 then d else dictInsert d p.partNumber p.etag) []

/-- Insert into a key-sorted list. -/
def insertSorted (kv : Int × String) : List (Int × String) → List (Int × String)
  | [] => [kv]
  | x :: xs => if kv.1 ≤ x.1 then kv :: x :: xs else x :: insertSorted kv xs

/-- Python sorted(d.items()): ascending by key (keys are unique). -/
def sortByKey (d : List (Int × String)) : List (Int × String) :=
  d.foldr insertSorted []

/-- Path.name: the final component. -/
def pathName (p : String) : String :=
  ⟨(p.data.reverse.takeWhile (fun c => c != '/')).reverse⟩

/-- Embeds _default_state_path of upload.py (append to the file name). -/
def _default_state_path (file_path : String) : String :=
  file_path ++ ".mdc-upload.json"

/-! ## upload.py: upload_dataset_file -/

/-- One network interaction of the upload flow, for call tracing. -/
inductive NetCall where
  | initiate (submissionId filename : String) (fileSize : Int) (mimeType : String)
  | presign (fileUploadId : String) (chunkIndex : Int)
  | put (partNumber : Int)
  | completeCall (fileUploadId uploadId : String)
deriving DecidableEq, Repr

/-- Oracle for the external collaborators of the upload flow: responses
of initiate, per-chunk presigned-url requests, per-part PUT outcomes and
the completion call. -/
structure UploadEnv where
  initResp : Except PyErr InitPayload
  presignResp : Int → Except PyErr PresignedResp
  putOutcome : Int → PutOutcome
  completeResp : Except PyErr Json

/-- Mutable state of the part loop of upload_dataset_file: the
filesystem, the running hash input, bytes read, the parts dict, the
persisted state object and the network calls made so far. -/
structure LoopState where
  fs : FSJ
  hasher : List Nat
  bytes_read : Nat
  parts_by_number : List (Int × String)
  state : UploadState
  calls : List NetCall

/-- The presigned-url selection inside the loop: reuse the initiation's
URL for its part when fresh, otherwise request one; returns the URL and
the network calls made. -/
def choosePresigned (env : UploadEnv) (session : Option UploadSession)
    (state : UploadState) (part_number : Int) (part_index : Nat) :
    Except PyErr (String × List NetCall) :=
  match session with
  | some s =>
    if part_number == s.partNumber && strTruthy s.presignedUrl then
      .ok (s.presignedUrl, [])
    else
      match get_presigned_part_url state.fileUploadId (part_index : Int)
          (env.presignResp (part_index : Int)) with
      | .error e => .error e
      | .ok presigned =>
        .ok (presigned.presignedUrl, [NetCall.presign state.fileUploadId (part_index : Int)])
  | none =>
    match get_presigned_part_url state.fileUploadId (part_index : Int)
        (env.presignResp (part_index : Int)) with
    | .error e => .error e
    | .ok presigned =>
      .ok (presigned.presignedUrl, [NetCall.presign state.fileUploadId (part_index : Int)])

/-- The part loop of upload_dataset_file (the for over
range(expected_parts)); the first Nat argument is the number of
remaining iterations.  Reading the file sequentially in partSize chunks
is take partSize of drop (index * partSize). -/
def uploadLoop (env : UploadEnv) (contents : List Nat) (session : Option UploadSession)
    (state_file : String) : Nat → Nat → LoopState → Except PyErr LoopState
  | 0, _, ls => .ok ls
  | Nat.succ fuel, part_index, ls =>
    let part_number : Int := (part_index : Int) + 1
    let chunk := (contents.drop (part_index * ls.state.partSize.toNat)).take
      ls.state.partSize.toNat
    if chunk.isEmpty then .ok ls
    else
      let ls1 := { ls with hasher := ls.hasher ++ chunk
                           bytes_read := ls.bytes_read + chunk.length }
      if (dictLookup ls1.parts_by_number part_number).isSome then
        uploadLoop env contents session state_file fuel (part_index + 1) ls1
      else
        match choosePresigned env session ls1.state part_number part_index with
        | .error e => .error e
        | .ok pres =>
          let ls2 := { ls1 with calls := ls1.calls ++ pres.2 }
          match _upload_part pres.1 (env.putOutcome part_number) with
          | .error e => .error e
          | .ok respHeader =>
            let ls3 := { ls2 with calls := ls2.calls ++ [NetCall.put part_number] }
            match _extract_etag respHeader with
            | .error e => .error e
            | .ok etag =>
              let newState := { ls3.state with
                parts := ls3.state.parts ++ [UploadPart.mk part_number etag] }
              let ls4 := { ls3 with
                parts_by_number := dictInsert ls3.parts_by_number part_number etag
                state := newState
                fs := save_upload_state ls3.fs state_file newState }
              uploadLoop env contents session state_file fuel (part_index + 1) ls4

/-- Everything upload_dataset_file establishes before the part loop. -/
structure PrepResult where
  state : UploadState
  session : Option UploadSession
  expected_parts : Int
  parts_by_number : List (Int × String)
  state_file : String
  file_size : Int
  fs : FSJ
  calls : List NetCall

/-- Shared tail of the preparation: expected-part computation and its
guard, and the parts dict. -/
def prepFinish (st : UploadState) (session : Option UploadSession)
    (state_file : String) (file_size : Int) (fs : FSJ) (calls : List NetCall) :
    Except PyErr PrepResult :=
  let expected_parts := _expected_parts st.fileSize st.partSize
  if expected_parts ≤ 0 then
    .error (.runtimeError "Invalid upload configuration (expected parts <= 0)")
  else
    .ok { state := st, session := session, expected_parts := expected_parts
          parts_by_number := _normalize_parts st, state_file := state_file
          file_size := file_size, fs := fs, calls := calls }

/-- The validation, state-resolution and initiation phase of
upload_dataset_file (source lines up to the loop).  contents is the
file's bytes, or None when the file does not exist. -/
def uploadPrepare (env : UploadEnv) (fs : FSJ) (contents : Option (List Nat))
    (file_path submission_id mime_type : String) (filename : Option String)
    (state_path : Option String) (resume : Bool) : Except PyErr PrepResult :=
  match _require_non_empty file_path "file_path" with
  | .error e => .error e
  | .ok _ =>
    match _require_non_empty submission_id "submission_id" with
    | .error e => .error e
    | .ok _ =>
      match _require_non_empty mime_type "mime_type" with
      | .error e => .error e
      | .ok _ =>
        match contents with
        | none => .error (.fileNotFound ("File not found: " ++ file_path))
        | some bytes =>
          let file_size : Int := bytes.length
          if file_size ≤ 0 then
            .error (.valueError "file_path must point to a non-empty file")
          else
            let final_filename := match filename with
              | some f => if strTruthy f then f else pathName file_path
              | none => pathName file_path
            let state_file := match state_path with
              | some sp => if strTruthy sp then sp else _default_state_path file_path
              | none => _default_state_path file_path
            let loaded := if resume then load_upload_state fs state_file else none
            let state0 : Option UploadState := match loaded with
              | some st =>
                if st.fileSize ≠ file_size || st.filename ≠ final_filename ||
                    st.submissionId ≠ submission_id then none
                else some st
              | none => none
            match state0 with
            | some st => prepFinish st none state_file file_size fs []
            | none =>
              match initiate_upload submission_id final_filename file_size mime_type
                  env.initResp with
              | .error e => .error e
              | .ok session =>
                if !strTruthy session.fileUploadId || !strTruthy session.uploadId ||
                    session.partSize ≤ 0 then
                  .error (.runtimeError "Upload initiation did not return expected fields")
                else
                  let st : UploadState :=
                    { submissionId := submission_id
                      fileUploadId := session.fileUploadId
                      uploadId := session.uploadId
                      fileSize := file_size
                      partSize := session.partSize
                      filename := final_filename
                      mimeType := mime_type
                      parts := []
                      checksum := none }
                  prepFinish st (some session) state_file file_size
                    (save_upload_state fs state_file st)
                    [NetCall.initiate submission_id final_filename file_size mime_type]

/-- The post-loop phase of upload_dataset_file: the byte-count and
part-count guards, checksum and sorted parts, the final save and the
completion call. -/
def uploadFinish (env : UploadEnv) (state_file : String) (expected_parts : Int)
    (ls : LoopState) : Except PyErr (UploadState × List NetCall × FSJ) :=
  if (ls.bytes_read : Int) ≠ ls.state.fileSize then
    .error (.runtimeError "Upload aborted because file size changed during upload")
  else if (ls.parts_by_number.length : Int) ≠ expected_parts then
    .error (.runtimeError "Upload incomplete")
  else
    let checksum := sha256hex ls.hasher
    let state2 := { ls.state with
      checksum := some checksum
      parts := (sortByKey ls.parts_by_number).map (fun kv => UploadPart.mk kv.1 kv.2) }
    let fs2 := save_upload_state ls.fs state_file state2
    match complete_upload state2.fileUploadId state2.uploadId state2.parts checksum
        env.completeResp with
    | .error e => .error e
    | .ok _ =>
      .ok (state2, ls.calls ++ [NetCall.completeCall state2.fileUploadId state2.uploadId], fs2)

/-- Embeds upload_dataset_file of upload.py as the composition of the
three phases; returns the final state, the trace of network calls and
the final filesystem. -/
def upload_dataset_file (env : UploadEnv) (fs : FSJ) (contents : Option (List Nat))
    (file_path submission_id mime_type : String) (filename : Option String)
    (state_path : Option String) (resume : Bool) :
    Except PyErr (UploadState × List NetCall × FSJ) :=
  match uploadPrepare env fs contents file_path submission_id mime_type filename
      state_path resume with
  | .error e => .error e
  | .ok prep =>
    match uploadLoop env (contents.getD []) prep.session prep.state_file
        prep.expected_parts.toNat 0
        { fs := prep.fs, hasher := [], bytes_read := 0
          parts_by_number := prep.parts_by_number, state := prep.state
          calls := prep.calls } with
    | .error e => .error e
    | .ok ls => uploadFinish env prep.state_file prep.expected_parts ls

/-! ## Dict lemmas -/

/-- A lookup succeeds exactly for the stored keys. -/
lemma dictLookup_isSome_iff (d : List (Int × String)) (key : Int) :
    (dictLookup d key).isSome = true ↔ key ∈ d.map Prod.fst := by
  induction d with
  | nil => simp [dictLookup, List.find?]
  | cons x xs ih =>
    by_cases hx : x.1 = key
    · simp [dictLookup, List.find?, hx]
    · have hx' : (x.1 == key) = false := by simp [hx]
      simp only [dictLookup, List.find?, hx'] at ih ⊢
      simpa [hx, Ne.symm hx] using ih

/-- Setting a present key rewrites its first binding. -/
lemma find_map_set (xs : List (Int × String)) (k : Int) (v : String)
    (h : (xs.find? (fun kv => kv.1 == k)).isSome = true) :
    (xs.map (fun kv => if kv.1 == k then (k, v) else kv)).find?
      (fun kv => kv.1 == k) = some (k, v) := by
  induction xs with
  | nil => simp at h
  | cons x t ih =>
    by_cases hx : x.1 = k
    · simp only [List.map_cons]
      rw [if_pos (by simp [hx])]
      simp [List.find?]
    · have hx' : (x.1 == k) = false := by simp [hx]
      simp only [List.find?, hx'] at h
      simp only [List.map_cons]
      rw [if_neg (by simp [hx]), List.find?_cons_of_neg _ (by simp [hx])]
      exact ih h

/-- After d[k] = v the key k maps to v. -/
lemma dictLookup_insert_self (d : List (Int × String)) (k : Int) (v : String) :
    dictLookup (dictInsert d k v) k = some v := by
  by_cases hf : (d.find? (fun kv => kv.1 == k)).isSome
  · simp only [dictInsert, hf, if_true, dictLookup, find_map_set d k v hf]
  · have hf' : d.find? (fun kv => kv.1 == k) = none := by
      cases h : d.find? (fun kv => kv.1 == k) with
      | none => rfl
      | some kv => rw [h] at hf; simp at hf
    have hins : dictInsert d k v = d ++ [(k, v)] := by
      simp [dictInsert, hf]
    rw [hins]
    simp only [dictLookup, List.find?_append, hf']
    simp [List.find?]

/-- Insertion never removes a key. -/
lemma dictInsert_mono (d : List (Int × String)) (k : Int) (v : String) (key : Int)
    (h : (dictLookup d key).isSome = true) :
    (dictLookup (dictInsert d k v) key).isSome = true := by
  rw [dictLookup_isSome_iff] at h ⊢
  simp only [dictInsert]
  split
  · rcases List.mem_map.mp h with ⟨kv, hkv, hfst⟩
    refine List.mem_map.mpr ⟨if kv.1 == k then (k, v) else kv, List.mem_map_of_mem _ hkv, ?_⟩
    by_cases hk : kv.1 = k
    · simp [hk, ← hfst]
    · have hkey : ¬kv.1 == k := by simp [hk]
      rw [if_neg hkey]
      exact hfst
  · simp [h]

/-- The key list of d[k] = v: unchanged when k is present, else k is
appended. -/
lemma dictInsert_fst (d : List (Int × String)) (k : Int) (v : String) :
    (dictInsert d k v).map Prod.fst =
      if (d.find? (fun kv => kv.1 == k)).isSome then d.map Prod.fst
      else d.map Prod.fst ++ [k] := by
  simp only [dictInsert]
  split
  · rw [List.map_map]
    refine List.map_congr_left fun kv _ => ?_
    by_cases hk : kv.1 = k <;> simp [hk]
  · simp

/-- Insertion preserves distinctness of keys. -/
lemma dictInsert_nodup (d : List (Int × String)) (k : Int) (v : String)
    (h : (d.map Prod.fst).Nodup) : ((dictInsert d k v).map Prod.fst).Nodup := by
  rw [dictInsert_fst]
  split
  · exact h
  · rename_i hf
    have hk : k ∉ d.map Prod.fst := by
      intro hmem
      rcases List.mem_map.mp hmem with ⟨kv, hkv, hfst⟩
      have : (d.find? (fun kv => kv.1 == k)).isSome = true := by
        rw [List.find?_isSome]
        exact ⟨kv, hkv, by simp [hfst]⟩
      simp [this] at hf
    exact h.append (List.nodup_singleton k)
      (fun x hx hx2 => by
        simp only [List.mem_singleton] at hx2
        subst hx2
        exact hk hx)

/-! ## Ceiling-division lemmas -/

/-- The three facts needed about ceilNat: it over-covers, its predecessor
under-covers, and it is positive. -/
lemma ceilNat_spec (L P : Nat) (hP : 0 < P) (hL : 0 < L) :
    L ≤ ceilNat L P * P ∧ (ceilNat L P - 1) * P < L ∧ 0 < ceilNat L P := by
  have h := Nat.div_add_mod (L + P - 1) P
  have hr : (L + P - 1) % P < P := Nat.mod_lt _ hP
  unfold ceilNat
  rcases hq : (L + P - 1) / P with _ | q
  · rw [hq] at h
    exfalso
    omega
  · rw [hq] at h
    rw [Nat.mul_succ] at h
    refine ⟨?_, ?_, Nat.succ_pos q⟩
    · have hcomm : (q + 1) * P = P * q + P := by ring
      omega
    · have hs : q + 1 - 1 = q := rfl
      rw [hs]
      have hcomm : q * P = P * q := Nat.mul_comm q P
      omega

/-! ## Sorting lemmas -/

/-- insertSorted inserts, up to permutation. -/
lemma insertSorted_perm (kv : Int × String) (l : List (Int × String)) :
    List.Perm (insertSorted kv l) (kv :: l) := by
  induction l with
  | nil => rfl
  | cons x xs ih =>
    simp only [insertSorted]
    split
    · rfl
    · exact (ih.cons x).trans (List.Perm.swap kv x xs)

/-- sortByKey permutes its input. -/
lemma sortByKey_perm (d : List (Int × String)) : List.Perm (sortByKey d) d := by
  induction d with
  | nil => rfl
  | cons x xs ih =>
    simpa [sortByKey] using (insertSorted_perm x (sortByKey xs)).trans (ih.cons x)

/-- insertSorted preserves key-sortedness. -/
lemma insertSorted_sorted (kv : Int × String) (l : List (Int × String))
    (h : l.Pairwise (fun a b => a.1 ≤ b.1)) :
    (insertSorted kv l).Pairwise (fun a b => a.1 ≤ b.1) := by
  induction l with
  | nil => simp [insertSorted]
  | cons x xs ih =>
    simp only [insertSorted]
    rcases List.pairwise_cons.mp h with ⟨hx, hxs⟩
    split
    · rename_i hle
      refine List.pairwise_cons.mpr ⟨?_, h⟩
      intro b hb
      rcases List.mem_cons.mp hb with rfl | hb2
      · exact hle
      · exact le_trans hle (hx _ hb2)
    · rename_i hgt
      refine List.pairwise_cons.mpr ⟨?_, ih hxs⟩
      intro b hb
      rcases List.mem_cons.mp ((insertSorted_perm kv xs).mem_iff.mp hb) with rfl | hb2
      · exact le_of_not_le hgt
      · exact hx _ hb2

/-- sortByKey sorts by key. -/
lemma sortByKey_sorted (d : List (Int × String)) :
    (sortByKey d).Pairwise (fun a b => a.1 ≤ b.1) := by
  induction d with
  | nil => simp [sortByKey]
  | cons x xs ih => exact insertSorted_sorted x (sortByKey xs) ih

/-- The canonical key list 1..N. -/
def rangeKeys (N : Nat) : List Int := (List.range N).map (fun j : Nat => (j : Int) + 1)

/-- A sorted duplicate-free key list of length N containing 1..N is
exactly 1..N. -/
lemma keys_eq_rangeKeys (ks : List Int) (N : Nat)
    (hnd : ks.Nodup) (hlen : ks.length = N)
    (hsub : ∀ j : Nat, j < N → ((j : Int) + 1) ∈ ks)
    (hsorted : ks.Pairwise (· ≤ ·)) :
    ks = rangeKeys N := by
  have hrnd : (rangeKeys N).Nodup := by
    simp only [rangeKeys]
    refine List.Nodup.map ?_ (List.nodup_range N)
    intro a b hab
    have h' : (a : Int) + 1 = (b : Int) + 1 := hab
    omega
  have hrsub : rangeKeys N ⊆ ks := by
    intro x hx
    simp only [rangeKeys] at hx
    rcases List.mem_map.mp hx with ⟨j, hj, rfl⟩
    exact hsub j (List.mem_range.mp hj)
  have hrlen : (rangeKeys N).length = N := by
    simp only [rangeKeys]
    rw [List.length_map, List.length_range]
  have hsp : List.Subperm (rangeKeys N) ks := List.subperm_of_subset hrnd hrsub
  have hperm : List.Perm (rangeKeys N) ks := hsp.perm_of_length_le (by omega)
  have hrsorted : (rangeKeys N).Pairwise (· ≤ ·) := by
    simp only [rangeKeys]
    refine List.Pairwise.map _ ?_ (List.pairwise_lt_range N)
    intro a b hab
    omega
  exact List.eq_of_perm_of_sorted hperm.symm hsorted hrsorted

/-! ## Loop lemmas -/

/-- take splits over a sum. -/
lemma take_add_split {α : Type} (m n : Nat) : ∀ (l : List α),
    l.take (m + n) = l.take m ++ (l.drop m).take n := by
  induction m with
  | zero => intro l; simp
  | succ m ih =>
    intro l
    cases l with
    | nil => simp
    | cons x xs => simp [Nat.succ_add, ih xs]

/-- A chunk inside the file is non-empty. -/
lemma chunk_not_empty (contents : List Nat) (i P : Nat) (hP : 0 < P)
    (h0 : i * P < contents.length) :
    ((contents.drop (i * P)).take P).isEmpty = false := by
  have hne : (contents.drop (i * P)).take P ≠ [] := by
    rw [Ne, List.take_eq_nil_iff]
    push_neg
    refine ⟨by omega, ?_⟩
    rw [Ne, List.drop_eq_nil_iff]
    omega
  cases hie : ((contents.drop (i * P)).take P).isEmpty
  · rfl
  · exact absurd (List.isEmpty_iff.mp hie) hne

/-- Concatenating one chunk with the following k chunks gives k+1
chunks. -/
lemma chunk_split (contents : List Nat) (i k P : Nat) :
    (contents.drop (i * P)).take P ++ (contents.drop ((i + 1) * P)).take (k * P) =
      (contents.drop (i * P)).take ((k + 1) * P) := by
  have hdd : contents.drop ((i + 1) * P) = (contents.drop (i * P)).drop P := by
    rw [List.drop_drop]
    congr 1
    ring
  rw [hdd, ← take_add_split]
  congr 1
  ring

/-- When every remaining part is already recorded, the loop makes no
call, changes no file and no dict entry, and only absorbs the remaining
chunks into the hash and the byte counter. -/
lemma uploadLoop_skip (env : UploadEnv) (contents : List Nat)
    (session : Option UploadSession) (state_file : String) :
    ∀ (k i : Nat) (ls : LoopState),
      0 < ls.state.partSize.toNat →
      (∀ j : Nat, j < k → (i + j) * ls.state.partSize.toNat < contents.length) →
      (∀ j : Nat, j < k →
        (dictLookup ls.parts_by_number (((i + j : Nat) : Int) + 1)).isSome = true) →
      uploadLoop env contents session state_file k i ls =
        .ok { ls with
          hasher := ls.hasher ++
            (contents.drop (i * ls.state.partSize.toNat)).take
              (k * ls.state.partSize.toNat)
          bytes_read := ls.bytes_read +
            ((contents.drop (i * ls.state.partSize.toNat)).take
              (k * ls.state.partSize.toNat)).length } := by
  intro k
  induction k with
  | zero =>
    intro i ls hP hlt hlook
    simp [uploadLoop]
  | succ k ih =>
    intro i ls hP hlt hlook
    have h0 : i * ls.state.partSize.toNat < contents.length := by
      have := hlt 0 (Nat.succ_pos k)
      simpa using this
    have hch := chunk_not_empty contents i ls.state.partSize.toNat hP h0
    have hl0 : (dictLookup ls.parts_by_number ((i : Int) + 1)).isSome = true := by
      have := hlook 0 (Nat.succ_pos k)
      simpa using this
    have hlt' : ∀ j : Nat, j < k →
        (i + 1 + j) * ls.state.partSize.toNat < contents.length := by
      intro j hj
      have := hlt (j + 1) (by omega)
      have harr : i + (j + 1) = i + 1 + j := by omega
      rwa [harr] at this
    have hlook' : ∀ j : Nat, j < k →
        (dictLookup ls.parts_by_number (((i + 1 + j : Nat) : Int) + 1)).isSome = true := by
      intro j hj
      have := hlook (j + 1) (by omega)
      have harr : i + (j + 1) = i + 1 + j := by omega
      rwa [harr] at this
    simp only [uploadLoop, hch, Bool.false_eq_true, if_false, hl0, if_true]
    rw [ih (i + 1)
      { ls with
        hasher := ls.hasher ++ (contents.drop (i * ls.state.partSize.toNat)).take
          ls.state.partSize.toNat
        bytes_read := ls.bytes_read + ((contents.drop (i * ls.state.partSize.toNat)).take
          ls.state.partSize.toNat).length }
      hP hlt' hlook']
    have hsplit := chunk_split contents i k ls.state.partSize.toNat
    have hlen : ((contents.drop (i * ls.state.partSize.toNat)).take
          ls.state.partSize.toNat).length +
        ((contents.drop ((i + 1) * ls.state.partSize.toNat)).take
          (k * ls.state.partSize.toNat)).length =
        ((contents.drop (i * ls.state.partSize.toNat)).take
          ((k + 1) * ls.state.partSize.toNat)).length := by
      rw [← hsplit, List.length_append]
    simp only [Except.ok.injEq, LoopState.mk.injEq, true_and, and_true]
    constructor
    · rw [List.append_assoc, hsplit]
    · rw [← hlen]
      omega

/-- Invariant of a successful loop run: for some number m of iterations
actually performed, the hash absorbed exactly the m chunks starting at
part i+1, the byte counter advanced by their length, the loop either ran
out of fuel or stopped at an empty chunk, parts i+1..i+m are all
recorded afterwards, no dict entry is ever lost, distinctness of dict
keys is preserved, and the state's sizes are unchanged. -/
lemma uploadLoop_ok (env : UploadEnv) (contents : List Nat)
    (session : Option UploadSession) (state_file : String) :
    ∀ (k i : Nat) (ls ls' : LoopState),
      uploadLoop env contents session state_file k i ls = .ok ls' →
      ∃ m : Nat, m ≤ k ∧
        ls'.state.partSize = ls.state.partSize ∧
        ls'.state.fileSize = ls.state.fileSize ∧
        ls'.hasher = ls.hasher ++
          (contents.drop (i * ls.state.partSize.toNat)).take
            (m * ls.state.partSize.toNat) ∧
        ls'.bytes_read = ls.bytes_read +
          ((contents.drop (i * ls.state.partSize.toNat)).take
            (m * ls.state.partSize.toNat)).length ∧
        (m = k ∨ ((contents.drop ((i + m) * ls.state.partSize.toNat)).take
            ls.state.partSize.toNat).isEmpty = true) ∧
        (∀ j : Nat, j < m →
          (dictLookup ls'.parts_by_number (((i + j : Nat) : Int) + 1)).isSome = true) ∧
        (∀ key : Int, (dictLookup ls.parts_by_number key).isSome = true →
          (dictLookup ls'.parts_by_number key).isSome = true) ∧
        ((ls.parts_by_number.map Prod.fst).Nodup →
          (ls'.parts_by_number.map Prod.fst).Nodup) := by
  intro k
  induction k with
  | zero =>
    intro i ls ls' h
    simp only [uploadLoop, Except.ok.injEq] at h
    subst h
    exact ⟨0, le_refl 0, rfl, rfl, by simp, by simp, Or.inl rfl,
      fun j hj => absurd hj (by omega), fun key hk => hk, id⟩
  | succ k ih =>
    intro i ls ls' h
    simp only [uploadLoop] at h
    split at h
    · rename_i hch
      simp only [Except.ok.injEq] at h
      subst h
      refine ⟨0, by omega, rfl, rfl, by simp, by simp, Or.inr (by simpa using hch),
        fun j hj => absurd hj (by omega), fun key hk => hk, id⟩
    · rename_i hch
      split at h
      · rename_i hlk
        obtain ⟨m, hm, hps, hfs, hh, hb, hbr, hlo, hmono, hnd⟩ := ih (i + 1) _ ls' h
        simp only at hps hfs hh hb hbr hlo hmono hnd
        refine ⟨m + 1, by omega, hps, hfs, ?_, ?_, ?_, ?_, hmono, hnd⟩
        · rw [hh, List.append_assoc, chunk_split contents i m ls.state.partSize.toNat]
        · rw [hb]
          rw [← chunk_split contents i m ls.state.partSize.toNat, List.length_append]
          omega
        · rcases hbr with rfl | hbr
          · exact Or.inl rfl
          · refine Or.inr ?_
            have harr : i + 1 + m = i + (m + 1) := by omega
            rwa [harr] at hbr
        · intro j hj
          rcases Nat.eq_zero_or_pos j with rfl | hjpos
          · have := hmono _ hlk
            simpa using this
          · obtain ⟨j', rfl⟩ : ∃ j', j = j' + 1 := ⟨j - 1, by omega⟩
            have := hlo j' (by omega)
            have harr : i + 1 + j' = i + (j' + 1) := by omega
            rwa [harr] at this
      · rename_i hlk
        split at h
        · exact absurd h (by simp)
        · rename_i pres hcp
          split at h
          · exact absurd h (by simp)
          · rename_i respHeader hup
            split at h
            · exact absurd h (by simp)
            · rename_i etag het
              obtain ⟨m, hm, hps, hfs, hh, hb, hbr, hlo, hmono, hnd⟩ := ih (i + 1) _ ls' h
              simp only at hps hfs hh hb hbr hlo hmono hnd
              refine ⟨m + 1, by omega, hps, hfs, ?_, ?_, ?_, ?_, ?_, ?_⟩
              · rw [hh, List.append_assoc, chunk_split contents i m ls.state.partSize.toNat]
              · rw [hb]
                rw [← chunk_split contents i m ls.state.partSize.toNat, List.length_append]
                omega
              · rcases hbr with rfl | hbr
                · exact Or.inl rfl
                · refine Or.inr ?_
                  have harr : i + 1 + m = i + (m + 1) := by omega
                  rwa [harr] at hbr
              · intro j hj
                rcases Nat.eq_zero_or_pos j with rfl | hjpos
                · have hself : (dictLookup
                      (dictInsert ls.parts_by_number ((i : Int) + 1) etag)
                      ((i : Int) + 1)).isSome = true := by
                    rw [dictLookup_insert_self]
                    rfl
                  have := hmono _ hself
                  simpa using this
                · obtain ⟨j', rfl⟩ : ∃ j', j = j' + 1 := ⟨j - 1, by omega⟩
                  have := hlo j' (by omega)
                  have harr : i + 1 + j' = i + (j' + 1) := by omega
                  rwa [harr] at this
              · intro key hk
                exact hmono key (dictInsert_mono _ _ _ _ hk)
              · intro hnd0
                exact hnd (dictInsert_nodup _ _ _ hnd0)

/-- Folding part entries into a dict preserves distinct keys. -/
lemma normalize_nodup_aux (parts : List UploadPart) :
    ∀ acc : List (Int × String), (acc.map Prod.fst).Nodup →
      ((parts.foldl
        (fun d p => if p.partNumber ≤ 0 then d else dictInsert d p.partNumber p.etag)
        acc).map Prod.fst).Nodup := by
  induction parts with
  | nil => intro acc hacc; simpa using hacc
  | cons p rest ih =>
    intro acc hacc
    simp only [List.foldl_cons]
    refine ih _ ?_
    split
    · exact hacc
    · exact dictInsert_nodup _ _ _ hacc

/-- The normalized parts dict has distinct keys. -/
lemma normalize_nodup (state : UploadState) :
    ((_normalize_parts state).map Prod.fst).Nodup :=
  normalize_nodup_aux state.parts [] (by simp)

/-- What a positive expected-part count implies. -/
lemma expected_parts_pos_facts (fsz psz : Int) (h : 0 < _expected_parts fsz psz) :
    0 < fsz ∧ 0 < psz ∧
      _expected_parts fsz psz = ((ceilNat fsz.toNat psz.toNat : Nat) : Int) := by
  unfold _expected_parts at h ⊢
  split at h
  · exact absurd h (by omega)
  · rename_i hcond
    simp only [Bool.or_eq_true, decide_eq_true_eq, not_or] at hcond
    push_neg at hcond
    exact ⟨by omega, by omega, by simp [hcond.1.not_le, hcond.2.not_le]⟩

/-- The state kept by the resume validation has the current file's
size. -/
lemma state0_fileSize (o : Option UploadState) (fsz : Int) (fname sid : String)
    (st : UploadState)
    (h : (match o with
          | some s =>
            if s.fileSize ≠ fsz || s.filename ≠ fname || s.submissionId ≠ sid then none
            else some s
          | none => none) = some st) :
    st.fileSize = fsz := by
  cases o with
  | none => simp at h
  | some s =>
    simp only at h
    split at h
    · simp at h
    · rename_i hc
      simp only [Option.some.injEq] at h
      subst h
      simp only [Bool.or_eq_true, decide_eq_true_eq, not_or] at hc
      exact not_ne_iff.mp hc.1.1

/-- Specification of a successful preparation phase: the state's size is
the file's size, the expected-part count is the guarded positive value
for the state's sizes, and the dict is the normalized part list. -/
lemma uploadPrepare_ok (env : UploadEnv) (fs : FSJ) (bytes : List Nat)
    (file_path submission_id mime_type : String) (filename : Option String)
    (state_path : Option String) (resume : Bool) (prep : PrepResult)
    (h : uploadPrepare env fs (some bytes) file_path submission_id mime_type filename
      state_path resume = .ok prep) :
    prep.state.fileSize = (bytes.length : Int) ∧
    prep.expected_parts = _expected_parts prep.state.fileSize prep.state.partSize ∧
    0 < prep.expected_parts ∧
    prep.parts_by_number = _normalize_parts prep.state := by
  have hfinish : ∀ (st : UploadState) (session : Option UploadSession)
      (state_file : String) (file_size : Int) (fs0 : FSJ) (calls : List NetCall),
      prepFinish st session state_file file_size fs0 calls = .ok prep →
      st.fileSize = file_size →
      prep.state.fileSize = file_size ∧
      prep.expected_parts = _expected_parts prep.state.fileSize prep.state.partSize ∧
      0 < prep.expected_parts ∧
      prep.parts_by_number = _normalize_parts prep.state := by
    intro st session state_file file_size fs0 calls hp hsz
    simp only [prepFinish] at hp
    split at hp
    · exact absurd hp (by simp)
    · rename_i hpos
      simp only [Except.ok.injEq] at hp
      subst hp
      refine ⟨hsz, rfl, ?_, rfl⟩
      show 0 < _expected_parts st.fileSize st.partSize
      omega
  simp only [uploadPrepare] at h
  split at h
  · exact absurd h (by simp)
  · split at h
    · exact absurd h (by simp)
    · split at h
      · exact absurd h (by simp)
      · split at h
        · exact absurd h (by simp)
        · split at h
          · rename_i st heq
            exact hfinish _ _ _ _ _ _ h (state0_fileSize _ _ _ _ st heq)
          · split at h
            · exact absurd h (by simp)
            · rename_i session hinit
              split at h
              · exact absurd h (by simp)
              · exact hfinish _ _ _ _ _ _ h rfl

/-- Specification of a successful finishing phase. -/
lemma uploadFinish_ok (env : UploadEnv) (state_file : String) (expected_parts : Int)
    (ls : LoopState) (st' : UploadState) (trace : List NetCall) (fs' : FSJ)
    (h : uploadFinish env state_file expected_parts ls = .ok (st', trace, fs')) :
    (ls.bytes_read : Int) = ls.state.fileSize ∧
    (ls.parts_by_number.length : Int) = expected_parts ∧
    st' = { ls.state with
      checksum := some (sha256hex ls.hasher)
      parts := (sortByKey ls.parts_by_number).map (fun kv => UploadPart.mk kv.1 kv.2) } ∧
    trace = ls.calls ++ [NetCall.completeCall st'.fileUploadId st'.uploadId] := by
  simp only [uploadFinish] at h
  split at h
  · exact absurd h (by simp)
  · rename_i hbytes
    split at h
    · exact absurd h (by simp)
    · rename_i hcount
      split at h
      · exact absurd h (by simp)
      · rename_i j hcomp
        simp only [Except.ok.injEq, Prod.mk.injEq] at h
        obtain ⟨hst, htr, hfs⟩ := h
        push_neg at hbytes hcount
        exact ⟨hbytes, hcount, hst.symm, by rw [← htr, ← hst]⟩

/-! ## Claim theorem: upload invariants -/

/-- C4: every successful run of upload_dataset_file returns a state
whose part numbers are exactly 1..N in ascending order without
duplicates, where N = ceil(fileSize / partSize) of the returned state,
and whose checksum is the SHA-256 hex digest of the entire file — the
hash having absorbed every chunk read, including chunks of parts skipped
because a prior attempt recorded them. -/
theorem C4_upload_parts_and_checksum (env : UploadEnv) (fs : FSJ) (bytes : List Nat)
    (file_path submission_id mime_type : String) (filename : Option String)
    (state_path : Option String) (resume : Bool)
    (st' : UploadState) (trace : List NetCall) (fs' : FSJ)
    (h : upload_dataset_file env fs (some bytes) file_path submission_id mime_type
      filename state_path resume = .ok (st', trace, fs')) :
    st'.parts.map (fun p => p.partNumber) =
      rangeKeys (_expected_parts st'.fileSize st'.partSize).toNat ∧
    st'.checksum = some (sha256hex bytes) ∧
    st'.fileSize = (bytes.length : Int) := by
  simp only [upload_dataset_file] at h
  split at h
  · exact absurd h (by simp)
  · rename_i prep heqp
    split at h
    · exact absurd h (by simp)
    · rename_i ls heql
      obtain ⟨hpfs, hpe, hppos, hpdict⟩ :=
        uploadPrepare_ok env fs bytes file_path submission_id mime_type filename
          state_path resume prep heqp
      obtain ⟨m, hm, hps, hfs2, hh, hb, hbr, hlo, hmono, hnd⟩ :=
        uploadLoop_ok env ((some bytes).getD []) prep.session prep.state_file
          prep.expected_parts.toNat 0 _ ls heql
      obtain ⟨hbytes, hcount, hst, htr⟩ :=
        uploadFinish_ok env prep.state_file prep.expected_parts ls st' trace fs' h
      simp only [Option.getD_some] at hh hb
      simp only at hps hfs2 hh hb hlo hmono hnd
      obtain ⟨hfpos, hpspos, hval⟩ := expected_parts_pos_facts _ _ (hpe ▸ hppos)
      have hLpos : 0 < bytes.length := by omega
      have hPpos : 0 < prep.state.partSize.toNat := by omega
      have hfszNat : prep.state.fileSize.toNat = bytes.length := by omega
      obtain ⟨hc1, hc2, hc3⟩ :=
        ceilNat_spec bytes.length prep.state.partSize.toNat hPpos hLpos
      have hexpval : prep.expected_parts =
          ((ceilNat bytes.length prep.state.partSize.toNat : Nat) : Int) := by
        rw [hpe, hval, hfszNat]
      have hfuel : prep.expected_parts.toNat =
          ceilNat bytes.length prep.state.partSize.toNat := by
        rw [hexpval]
        exact Int.toNat_natCast _
      have hbr_read : ls.bytes_read = bytes.length := by omega
      have hbL : bytes.length ≤ m * prep.state.partSize.toNat := by
        rw [hbr_read] at hb
        simp only [Nat.zero_mul, List.drop_zero, Nat.zero_add, List.length_take] at hb
        omega
      have hmN : m = ceilNat bytes.length prep.state.partSize.toNat := by
        rw [hfuel] at hm
        by_contra hne
        have hmlt : m ≤ ceilNat bytes.length prep.state.partSize.toNat - 1 := by omega
        have := Nat.mul_le_mul_right prep.state.partSize.toNat hmlt
        omega
      have hhash : ls.hasher = bytes := by
        rw [hh, hmN]
        simp only [Nat.zero_mul, List.drop_zero, List.nil_append]
        exact List.take_of_length_le (by omega)
      have hdict_len : ls.parts_by_number.length =
          ceilNat bytes.length prep.state.partSize.toNat := by omega
      have hksnd : (ls.parts_by_number.map Prod.fst).Nodup := by
        apply hnd
        rw [hpdict]
        exact normalize_nodup prep.state
      have hmem : ∀ j : Nat, j < ceilNat bytes.length prep.state.partSize.toNat →
          ((j : Int) + 1) ∈ ls.parts_by_number.map Prod.fst := by
        intro j hj
        have hj' := hlo j (by omega)
        rw [dictLookup_isSome_iff] at hj'
        simpa using hj'
      have hks : (sortByKey ls.parts_by_number).map Prod.fst =
          rangeKeys (ceilNat bytes.length prep.state.partSize.toNat) := by
        apply keys_eq_rangeKeys
        · exact (List.Perm.nodup_iff
            ((sortByKey_perm ls.parts_by_number).map Prod.fst)).mpr hksnd
        · rw [List.length_map, (sortByKey_perm ls.parts_by_number).length_eq]
          exact hdict_len
        · intro j hj
          exact ((sortByKey_perm ls.parts_by_number).map Prod.fst).mem_iff.mpr (hmem j hj)
        · exact List.Pairwise.map _ (fun a b hab => hab)
            (sortByKey_sorted ls.parts_by_number)
      subst hst
      refine ⟨?_, ?_, ?_⟩
      · have hmm : ((sortByKey ls.parts_by_number).map
            (fun kv => UploadPart.mk kv.1 kv.2)).map (fun p => p.partNumber) =
            (sortByKey ls.parts_by_number).map Prod.fst := by
          rw [List.map_map]
          rfl
        show ((sortByKey ls.parts_by_number).map
          (fun kv => UploadPart.mk kv.1 kv.2)).map (fun p => p.partNumber) = _
        rw [hmm, hks]
        have hN : (_expected_parts ls.state.fileSize ls.state.partSize).toNat =
            ceilNat bytes.length prep.state.partSize.toNat := by
          rw [hfs2, hps, ← hpe, hfuel]
        rw [show (_expected_parts
            ({ ls.state with
              checksum := some (sha256hex ls.hasher)
              parts := (sortByKey ls.parts_by_number).map
                (fun kv => UploadPart.mk kv.1 kv.2) } : UploadState).fileSize
            ({ ls.state with
              checksum := some (sha256hex ls.hasher)
              parts := (sortByKey ls.parts_by_number).map
                (fun kv => UploadPart.mk kv.1 kv.2) } : UploadState).partSize).toNat =
          (_expected_parts ls.state.fileSize ls.state.partSize).toNat from rfl, hN]
      · show some (sha256hex ls.hasher) = _
        rw [hhash]
      · show ls.state.fileSize = _
        omega

/-! ## Support lemmas for the resume-idempotence claim -/

/-- A state accepted by load_upload_state passed its guards. -/
lemma load_ok_facts (fs : FSJ) (path : String) (st : UploadState)
    (h : load_upload_state fs path = some st) :
    strTruthy st.fileUploadId = true ∧ strTruthy st.uploadId = true ∧
    0 < st.fileSize ∧ 0 < st.partSize := by
  unfold load_upload_state at h
  split at h
  · exact absurd h (by simp)
  · split at h
    · exact absurd h (by simp)
    · rename_i state hfd
      split at h
      · exact absurd h (by simp)
      · rename_i hids
        split at h
        · exact absurd h (by simp)
        · rename_i hszs
          simp only [Option.some.injEq] at h
          subst h
          simp only [Bool.or_eq_true, Bool.not_eq_true', not_or] at hids
          simp only [Bool.or_eq_true, decide_eq_true_eq, not_or] at hszs
          push_neg at hids hszs
          refine ⟨?_, ?_, by omega, by omega⟩
          · cases hbv : strTruthy state.fileUploadId
            · exact absurd hbv hids.1
            · rfl
          · cases hbv : strTruthy state.uploadId
            · exact absurd hbv hids.2
            · rfl

/-- rangeKeys is duplicate-free. -/
lemma rangeKeys_nodup (N : Nat) : (rangeKeys N).Nodup := by
  simp only [rangeKeys]
  refine List.Nodup.map ?_ (List.nodup_range N)
  intro a b hab
  have h' : (a : Int) + 1 = (b : Int) + 1 := hab
  omega

/-- Membership in rangeKeys. -/
lemma rangeKeys_mem (N : Nat) (x : Int) :
    x ∈ rangeKeys N ↔ ∃ j : Nat, j < N ∧ x = (j : Int) + 1 := by
  simp only [rangeKeys, List.mem_map, List.mem_range]
  constructor
  · rintro ⟨j, hj, rfl⟩
    exact ⟨j, hj, rfl⟩
  · rintro ⟨j, hj, rfl⟩
    exact ⟨j, hj, rfl⟩

/-- Folding distinct positive parts into an empty dict lists them in
order. -/
lemma normalize_aux_eq (parts : List UploadPart) :
    ∀ acc : List (Int × String),
      (∀ p ∈ parts, 0 < p.partNumber) →
      (parts.map (fun p => p.partNumber)).Nodup →
      (∀ p ∈ parts, p.partNumber ∉ acc.map Prod.fst) →
      parts.foldl
        (fun d p => if p.partNumber ≤ 0 then d else dictInsert d p.partNumber p.etag)
        acc =
        acc ++ parts.map (fun p => (p.partNumber, p.etag)) := by
  induction parts with
  | nil => intro acc _ _ _; simp
  | cons p rest ih =>
    intro acc hpos hnd hdisj
    simp only [List.foldl_cons]
    rw [if_neg (by have := hpos p (by simp); omega)]
    have hnotin : p.partNumber ∉ acc.map Prod.fst := hdisj p (by simp)
    have hins : dictInsert acc p.partNumber p.etag = acc ++ [(p.partNumber, p.etag)] := by
      unfold dictInsert
      rw [if_neg]
      intro hfind
      rw [List.find?_isSome] at hfind
      obtain ⟨kv, hkv, hbeq⟩ := hfind
      refine hnotin (List.mem_map.mpr ⟨kv, hkv, ?_⟩)
      simpa using hbeq
    rw [hins]
    have hnd' : (∀ x ∈ rest, ¬x.partNumber = p.partNumber) ∧
        (rest.map (fun q => q.partNumber)).Nodup := by
      simpa using hnd
    rw [ih (acc ++ [(p.partNumber, p.etag)])
      (fun q hq => hpos q (by simp [hq])) hnd'.2 ?_]
    · simp
    · intro q hq
      simp only [List.map_append, List.mem_append]
      push_neg
      refine ⟨hdisj q (by simp [hq]), ?_⟩
      simp only [List.map_cons, List.map_nil, List.mem_singleton]
      intro heq
      exact absurd heq (hnd'.1 q hq)

/-- The normalized dict of a state whose parts are distinct and positive
is the part list itself, as key-value pairs. -/
lemma normalize_eq_map (st : UploadState)
    (hpos : ∀ p ∈ st.parts, 0 < p.partNumber)
    (hnd : (st.parts.map (fun p => p.partNumber)).Nodup) :
    _normalize_parts st = st.parts.map (fun p => (p.partNumber, p.etag)) := by
  unfold _normalize_parts
  rw [normalize_aux_eq st.parts [] hpos hnd (by simp)]
  simp

/-! ## The digest is never blank -/

/-- Hex digits are not whitespace. -/
lemma hexDigit_not_space (k : Nat) (h : k < 16) : pyIsSpace (hexDigit k) = false := by
  interval_cases k <;> decide

/-- No character of a hex-rendered word is whitespace. -/
lemma hex8_not_space (x : Nat) : ∀ c ∈ hex8 x, pyIsSpace c = false := by
  intro c hc
  simp only [hex8, List.mem_map] at hc
  obtain ⟨i, _, rfl⟩ := hc
  exact hexDigit_not_space _ (Nat.mod_lt _ (by norm_num))

/-- No character of a digest is whitespace. -/
lemma sha256hex_no_space (m : List Nat) :
    ∀ c ∈ (sha256hex m).data, pyIsSpace c = false := by
  intro c hc
  simp only [sha256hex] at hc
  rw [List.mem_flatten] at hc
  obtain ⟨l, hl, hcl⟩ := hc
  rw [List.mem_map] at hl
  obtain ⟨x, _, rfl⟩ := hl
  exact hex8_not_space x c hcl

/-- dropWhile is the identity when the predicate never holds. -/
lemma dropWhile_all_false {p : Char → Bool} : ∀ (l : List Char),
    (∀ c ∈ l, p c = false) → l.dropWhile p = l := by
  intro l h
  cases l with
  | nil => rfl
  | cons c cs =>
    rw [List.dropWhile_cons_of_neg]
    simp [h c (by simp)]

/-- Stripping a whitespace-free string changes nothing. -/
lemma pyStrip_eq_self (s : String) (h : ∀ c ∈ s.data, pyIsSpace c = false) :
    pyStrip s = s := by
  unfold pyStrip
  rw [dropWhile_all_false _ h,
    dropWhile_all_false _ (fun c hc => h c (List.mem_reverse.mp hc)),
    List.reverse_reverse]

/-- A hex-rendered word is non-empty. -/
lemma hex8_ne_nil (x : Nat) : hex8 x ≠ [] := by
  simp [hex8, List.range_succ]

/-- A digest is a truthy Python string. -/
lemma sha256hex_truthy (m : List Nat) : strTruthy (sha256hex m) = true := by
  unfold strTruthy
  cases hie : (sha256hex m).isEmpty
  · rfl
  · exfalso
    have hempty : sha256hex m = "" := (String.isEmpty_iff _).mp hie
    have hd : (sha256hex m).data = [] := by rw [hempty]
    simp only [sha256hex] at hd
    rw [List.flatten_eq_nil_iff] at hd
    set s8 := sha256blocks ((sha256pad m).length / 64) (sha256pad m) sha256H0 with hs8
    refine hex8_ne_nil s8.a (hd _ ?_)
    exact List.mem_map_of_mem _ (by simp)

/-- The stripped digest is still truthy. -/
lemma sha256hex_strip_truthy (m : List Nat) :
    strTruthy (pyStrip (sha256hex m)) = true := by
  rw [pyStrip_eq_self _ (sha256hex_no_space m)]
  exact sha256hex_truthy m

/-- A value that is non-blank after stripping passes _require_non_empty. -/
lemma require_ok (v fn : String) (hv : strTruthy (pyStrip v) = true) :
    _require_non_empty v fn = .ok () := by
  unfold _require_non_empty
  rw [if_neg]
  simp [strip_nonempty v hv, hv]

/-! ## Claim theorem: resume idempotence -/

/-- C5: re-invoking upload_dataset_file with resume enabled against a
state file persisted by a completed prior run (all expected parts
recorded, prior checksum present, matching file and submission) makes no
initiation, presigned-url or PUT call — the whole trace is the single
completion call — and the returned checksum equals the prior run's. -/
theorem C5_resume_idempotent (env : UploadEnv) (fs : FSJ) (bytes : List Nat)
    (st0 : UploadState)
    (file_path submission_id mime_type fname state_file : String)
    (hload : load_upload_state fs state_file = some st0)
    (hsize : st0.fileSize = (bytes.length : Int))
    (hname : st0.filename = fname) (hfn : strTruthy fname = true)
    (hsub0 : st0.submissionId = submission_id)
    (hpath : strTruthy (pyStrip file_path) = true)
    (hsubm : strTruthy (pyStrip submission_id) = true)
    (hmime : strTruthy (pyStrip mime_type) = true)
    (hsf : strTruthy state_file = true)
    (hL : 0 < bytes.length)
    (hparts : st0.parts.map (fun p => p.partNumber) =
      rangeKeys (_expected_parts st0.fileSize st0.partSize).toNat)
    (hchk : st0.checksum = some (sha256hex bytes))
    (hfid : strTruthy (pyStrip st0.fileUploadId) = true)
    (huid : strTruthy (pyStrip st0.uploadId) = true)
    (hcomp : ∃ j, env.completeResp = .ok j) :
    ∃ st' fs',
      upload_dataset_file env fs (some bytes) file_path submission_id mime_type
        (some fname) (some state_file) true =
        .ok (st', [NetCall.completeCall st0.fileUploadId st0.uploadId], fs') ∧
      st'.checksum = st0.checksum := by
  obtain ⟨jc, hcompresp⟩ := hcomp
  obtain ⟨hfid0, huid0, hfsz0, hpsz0⟩ := load_ok_facts fs state_file st0 hload
  have hPpos : 0 < st0.partSize.toNat := by omega
  have hLtoNat : st0.fileSize.toNat = bytes.length := by omega
  have hNval : _expected_parts st0.fileSize st0.partSize =
      ((ceilNat bytes.length st0.partSize.toNat : Nat) : Int) := by
    unfold _expected_parts
    rw [if_neg, hLtoNat]
    simp only [Bool.or_eq_true, decide_eq_true_eq, not_or]
    exact ⟨by omega, by omega⟩
  obtain ⟨hc1, hc2, hc3⟩ := ceilNat_spec bytes.length st0.partSize.toNat hPpos hL
  have hNpos : 0 < _expected_parts st0.fileSize st0.partSize := by
    rw [hNval]
    omega
  have hNtoNat : (_expected_parts st0.fileSize st0.partSize).toNat =
      ceilNat bytes.length st0.partSize.toNat := by
    rw [hNval]
    exact Int.toNat_natCast _
  have hparts' : st0.parts.map (fun p => p.partNumber) =
      rangeKeys (ceilNat bytes.length st0.partSize.toNat) := by
    rw [← hNtoNat]
    exact hparts
  have hposKeys : ∀ p ∈ st0.parts, 0 < p.partNumber := by
    intro p hp
    have hmemk : p.partNumber ∈ rangeKeys (ceilNat bytes.length st0.partSize.toNat) := by
      rw [← hparts']
      exact List.mem_map_of_mem _ hp
    obtain ⟨j, hj, hje⟩ := (rangeKeys_mem _ _).mp hmemk
    omega
  have hndKeys : (st0.parts.map (fun p => p.partNumber)).Nodup := by
    rw [hparts']
    exact rangeKeys_nodup _
  have hdict : _normalize_parts st0 = st0.parts.map (fun p => (p.partNumber, p.etag)) :=
    normalize_eq_map st0 hposKeys hndKeys
  have hdictkeys : (_normalize_parts st0).map Prod.fst =
      rangeKeys (ceilNat bytes.length st0.partSize.toNat) := by
    rw [hdict, List.map_map]
    exact hparts'
  have hplen : st0.parts.length = ceilNat bytes.length st0.partSize.toNat := by
    have := congrArg List.length hparts'
    simpa [rangeKeys] using this
  have hdlen : (_normalize_parts st0).length =
      ceilNat bytes.length st0.partSize.toNat := by
    rw [hdict, List.length_map]
    exact hplen
  have hlook : ∀ j : Nat, j < ceilNat bytes.length st0.partSize.toNat →
      (dictLookup (_normalize_parts st0) (((0 + j : Nat) : Int) + 1)).isSome = true := by
    intro j hj
    rw [dictLookup_isSome_iff, hdictkeys, rangeKeys_mem]
    exact ⟨j, hj, by simp⟩
  have hlt : ∀ j : Nat, j < ceilNat bytes.length st0.partSize.toNat →
      (0 + j) * st0.partSize.toNat < bytes.length := by
    intro j hj
    simp only [Nat.zero_add]
    have hmul : j * st0.partSize.toNat ≤
        (ceilNat bytes.length st0.partSize.toNat - 1) * st0.partSize.toNat :=
      Nat.mul_le_mul_right _ (by omega)
    omega
  have htake : (bytes.drop (0 * st0.partSize.toNat)).take
      (ceilNat bytes.length st0.partSize.toNat * st0.partSize.toNat) = bytes := by
    simp only [Nat.zero_mul, List.drop_zero]
    exact List.take_of_length_le (by omega)
  have hloop : uploadLoop env bytes none state_file
      (ceilNat bytes.length st0.partSize.toNat) 0
      { fs := fs, hasher := [], bytes_read := 0,
        parts_by_number := _normalize_parts st0, state := st0, calls := [] } =
      .ok { fs := fs, hasher := bytes, bytes_read := bytes.length,
            parts_by_number := _normalize_parts st0, state := st0, calls := [] } := by
    rw [uploadLoop_skip env bytes none state_file
      (ceilNat bytes.length st0.partSize.toNat) 0
      { fs := fs, hasher := [], bytes_read := 0,
        parts_by_number := _normalize_parts st0, state := st0, calls := [] }
      hPpos hlt hlook]
    simp [htake]
    omega
  have hL0 : ¬((bytes.length : Int) ≤ 0) := by omega
  have hNpos' : ¬(_expected_parts st0.fileSize st0.partSize ≤ 0) := by omega
  have hprep : uploadPrepare env fs (some bytes) file_path submission_id mime_type
      (some fname) (some state_file) true =
      .ok { state := st0, session := none,
            expected_parts := _expected_parts st0.fileSize st0.partSize,
            parts_by_number := _normalize_parts st0, state_file := state_file,
            file_size := (bytes.length : Int), fs := fs, calls := [] } := by
    simp only [uploadPrepare, require_ok file_path "file_path" hpath,
      require_ok submission_id "submission_id" hsubm,
      require_ok mime_type "mime_type" hmime, hfn, hsf, hload, prepFinish,
      if_true, if_neg hL0, if_neg hNpos']
    have hNpos2 : 0 < _expected_parts (bytes.length : Int) st0.partSize := by
      rw [← hsize]
      exact hNpos
    simp [hsize, hname, hsub0, hNpos2]
  have hparts2pos : 0 < ((sortByKey (_normalize_parts st0)).map
      (fun kv => UploadPart.mk kv.1 kv.2)).length := by
    rw [List.length_map, (sortByKey_perm _).length_eq, hdlen]
    omega
  have hcompl : complete_upload st0.fileUploadId st0.uploadId
      ((sortByKey (_normalize_parts st0)).map (fun kv => UploadPart.mk kv.1 kv.2))
      (sha256hex bytes) env.completeResp = .ok jc := by
    simp only [complete_upload, require_ok _ _ hfid, require_ok _ _ huid,
      require_ok _ _ (sha256hex_strip_truthy bytes)]
    rw [if_neg, hcompresp]
    simp only [List.isEmpty_iff]
    exact List.ne_nil_of_length_pos hparts2pos
  have hfin : uploadFinish env state_file (_expected_parts st0.fileSize st0.partSize)
      { fs := fs, hasher := bytes, bytes_read := bytes.length,
        parts_by_number := _normalize_parts st0, state := st0, calls := [] } =
      .ok ({ st0 with checksum := some (sha256hex bytes),
                      parts := (sortByKey (_normalize_parts st0)).map
                        (fun kv => UploadPart.mk kv.1 kv.2) },
        [NetCall.completeCall st0.fileUploadId st0.uploadId],
        save_upload_state fs state_file
          { st0 with checksum := some (sha256hex bytes),
                     parts := (sortByKey (_normalize_parts st0)).map
                       (fun kv => UploadPart.mk kv.1 kv.2) }) := by
    simp only [uploadFinish]
    rw [if_neg (by
        show ¬(((bytes.length : Nat) : Int) ≠ st0.fileSize)
        omega),
      if_neg (by
        show ¬((((_normalize_parts st0).length : Nat) : Int) ≠
          _expected_parts st0.fileSize st0.partSize)
        rw [hdlen, hNval]
        omega)]
    rw [hcompl]
    simp
  refine ⟨{ st0 with checksum := some (sha256hex bytes),
                     parts := (sortByKey (_normalize_parts st0)).map
                       (fun kv => UploadPart.mk kv.1 kv.2) },
    save_upload_state fs state_file
      { st0 with checksum := some (sha256hex bytes),
                 parts := (sortByKey (_normalize_parts st0)).map
                   (fun kv => UploadPart.mk kv.1 kv.2) }, ?_, ?_⟩
  · simp only [upload_dataset_file, hprep]
    rw [show ({ state := st0, session := none,
                expected_parts := _expected_parts st0.fileSize st0.partSize,
                parts_by_number := _normalize_parts st0, state_file := state_file,
                file_size := (bytes.length : Int), fs := fs, calls := [] } :
        PrepResult).expected_parts.toNat =
      ceilNat bytes.length st0.partSize.toNat from hNtoNat]
    simp only [Option.getD_some]
    rw [hloop]
    exact hfin
  · simp [hchk]

/-! ## Claim theorem: early validations -/

/-- C9 (amended): a 0-byte file is rejected by upload_dataset_file with
an invalid-argument error for every oracle (hence before any network
call); get_presigned_part_url rejects a negative chunk index the same
way (a zero index, being a valid zero-based index, is accepted — the
amendment); and initiate_upload rejects a non-positive file size for
every response. -/
theorem C9_early_validation (env : UploadEnv) (fs : FSJ)
    (file_path submission_id mime_type : String) (filename : Option String)
    (state_path : Option String) (resume : Bool)
    (h1 : strTruthy (pyStrip file_path) = true)
    (h2 : strTruthy (pyStrip submission_id) = true)
    (h3 : strTruthy (pyStrip mime_type) = true) :
    (upload_dataset_file env fs (some []) file_path submission_id mime_type filename
        state_path resume =
      .error (.valueError "file_path must point to a non-empty file")) ∧
    (∀ (fid : String) (ci : Int) (resp : Except PyErr PresignedResp),
      strTruthy (pyStrip fid) = true → ci < 0 →
      get_presigned_part_url fid ci resp =
        .error (.valueError "chunk_index must be a non-negative integer")) ∧
    (∀ (sid fn mt : String) (n : Int) (resp : Except PyErr InitPayload),
      strTruthy (pyStrip sid) = true → strTruthy (pyStrip fn) = true →
      strTruthy (pyStrip mt) = true → n ≤ 0 →
      initiate_upload sid fn n mt resp =
        .error (.valueError "file_size must be a positive integer")) := by
  refine ⟨?_, ?_, ?_⟩
  · simp [upload_dataset_file, uploadPrepare, require_ok file_path "file_path" h1,
      require_ok submission_id "submission_id" h2, require_ok mime_type "mime_type" h3]
  · intro fid ci resp hf hci
    simp [get_presigned_part_url, require_ok fid "file_upload_id" hf, hci]
  · intro sid fn mt n resp hs hf hm hn
    simp [initiate_upload, require_ok sid "submission_id" hs,
      require_ok fn "filename" hf, require_ok mt "mime_type" hm, hn]

/-- A concrete presigned-url response. -/
def presignResp0 : PresignedResp where
  partNumber := some 1
  presignedUrl := some "https://storage.example.org/put-0"
  expiresAt := some "soon"

/-- C9 counterexample to the claim as stated: a zero chunk index is not
rejected; the request proceeds and yields the presigned URL of part 1. -/
theorem C9_counterexample :
    get_presigned_part_url "fu-1" 0 (.ok presignResp0) =
      .ok { partNumber := 1, presignedUrl := "https://storage.example.org/put-0",
            expiresAt := "soon" } := rfl

/-! ## Concrete upload instances for witnesses -/

/-- Initiation response with part size 2. -/
def initW : InitPayload where
  fileUploadId := some "fu-1"
  uploadId := some "u-1"
  bucket := some "bkt"
  key := some "key"
  partSize := some 2
  partNumber := some 1
  presignedUrl := some "https://storage.example.org/put-1"
  expiresAt := some "soon"

/-- Presigned-url responses per chunk index. -/
def presignW (i : Int) : PresignedResp where
  partNumber := some (i + 1)
  presignedUrl := some "https://storage.example.org/put-n"
  expiresAt := some "soon"

/-- A fully cooperative oracle. -/
def envW : UploadEnv where
  initResp := .ok initW
  presignResp := fun i => .ok (presignW i)
  putOutcome := fun n => .success (some ("etag-" ++ toString n))
  completeResp := .ok .null

/-- A five-byte file, giving three parts of size 2. -/
def bytesW : List Nat := [10, 20, 30, 40, 50]

/-- A concrete fresh upload run. -/
def runW : Except PyErr (UploadState × List NetCall × FSJ) :=
  upload_dataset_file envW (fun _ => none) (some bytesW) "/tmp/a.bin" "sub-1"
    "application/gzip" none none true

/-- The state returned by runW. -/
def stW : UploadState :=
  match runW with
  | .ok t => t.1
  | .error _ => stExample

/-- The network calls made by runW. -/
def traceW : List NetCall :=
  match runW with
  | .ok t => t.2.1
  | .error _ => []

/-- The filesystem left by runW. -/
def fsW : FSJ :=
  match runW with
  | .ok t => t.2.2
  | .error _ => fun _ => none

set_option maxRecDepth 1000000 in
/-- C4 witness: the concrete run satisfies the part and checksum
invariants. -/
theorem C4_upload_parts_and_checksum_witness :
    stW.parts.map (fun p => p.partNumber) =
      rangeKeys (_expected_parts stW.fileSize stW.partSize).toNat ∧
    stW.checksum = some (sha256hex bytesW) ∧
    stW.fileSize = (bytesW.length : Int) :=
  C4_upload_parts_and_checksum envW (fun _ => none) bytesW "/tmp/a.bin" "sub-1"
    "application/gzip" none none true stW traceW fsW rfl

set_option maxRecDepth 1000000 in
/-- C5 witness: resuming the completed concrete run performs only the
completion call and reuses the checksum. -/
theorem C5_resume_idempotent_witness :
    ∃ st' fs',
      upload_dataset_file envW fsW (some bytesW) "/tmp/a.bin" "sub-1"
        "application/gzip" (some "a.bin") (some "/tmp/a.bin.mdc-upload.json") true =
        .ok (st', [NetCall.completeCall stW.fileUploadId stW.uploadId], fs') ∧
      st'.checksum = stW.checksum :=
  C5_resume_idempotent envW fsW bytesW stW "/tmp/a.bin" "sub-1" "application/gzip"
    "a.bin" "/tmp/a.bin.mdc-upload.json" (by decide) (by decide) (by decide)
    (by decide) (by decide) (by decide) (by decide) (by decide) (by decide)
    (by decide) (by decide) (by decide) (by decide) (by decide) ⟨.null, rfl⟩

set_option maxRecDepth 1000000 in
/-- C9 witness: the three rejections at concrete inputs. -/
theorem C9_early_validation_witness :
    (upload_dataset_file envW (fun _ => none) (some []) "/tmp/a.bin" "sub-1"
        "application/gzip" none none true =
      .error (.valueError "file_path must point to a non-empty file")) ∧
    (get_presigned_part_url "fu-1" (-1) (.ok presignResp0) =
      .error (.valueError "chunk_index must be a non-negative integer")) ∧
    (initiate_upload "sub-1" "a.bin" 0 "application/gzip" (.ok initW) =
      .error (.valueError "file_size must be a positive integer")) :=
  ⟨(C9_early_validation envW (fun _ => none) "/tmp/a.bin" "sub-1" "application/gzip"
      none none true (by decide) (by decide) (by decide)).1,
   (C9_early_validation envW (fun _ => none) "/tmp/a.bin" "sub-1" "application/gzip"
      none none true (by decide) (by decide) (by decide)).2.1 "fu-1" (-1)
      (.ok presignResp0) (by decide) (by decide),
   (C9_early_validation envW (fun _ => none) "/tmp/a.bin" "sub-1" "application/gzip"
      none none true (by decide) (by decide) (by decide)).2.2 "sub-1" "a.bin"
      "application/gzip" 0 (.ok initW) (by decide) (by decide) (by decide) (by decide)⟩

end DataCollective
